import Mathlib

/-!
# Plugin activation and deactivation (server/activate.go)

A shallow embedding of `createBotSession`, `Plugin.OnActivate`, the two
goroutine bodies that `OnActivate` starts inline, and `Plugin.OnDeactivate`.

Every call into a collaborator (the plugin API, the license checker, the
relay packages, the helper methods of `Plugin` that live in other files) is
answered by a field of `World`; the embedded functions record each such call,
each log entry, each access to a shared field of `Plugin`, each use of the
aggregate mutex `p.mut` and each `go` statement in an effect trace, in program
order.
-/

namespace Calls

/-! ## Errors -/

/-- Go `error` values: a plain message, or `fmt.Errorf("<pre>: %w", inner)`. -/
inductive Error where
  | msg (t : String)
  | wrap (pre : String) (inner : Error)
  deriving DecidableEq, Repr

/-- The text that the method `Error()` returns for an error value. -/
def Error.text : Error → String
  | .msg t => t
  | .wrap pre inner => pre ++ ": " ++ inner.text

/-- The `errors.Is` test: `e` is `c`, or wraps (through `%w`) an error that is. -/
def Error.Is : Error → Error → Bool
  | .msg t, c => decide (Error.msg t = c)
  | .wrap pre inner, c => decide (Error.wrap pre inner = c) || inner.Is c

/-! ## Handles and configuration -/

/-- The `*model.Session` returned by `p.API.CreateSession`. -/
structure Session where
  Id : String
  UserId : String
  deriving DecidableEq, Repr

/-- The `*model.PluginStatus` returned by `p.API.GetPluginStatus`. -/
structure PluginStatus where
  ClusterId : String
  deriving DecidableEq, Repr

/-- The handle returned by `enterprise.NewLicenseChecker`. -/
structure LicenseChecker where
  id : Nat
  deriving DecidableEq, Repr

/-- The handle returned by `p.newJobService`. -/
structure JobService where
  id : Nat
  deriving DecidableEq, Repr

/-- The handle returned by `p.newRTCDClientManager`. -/
structure RTCDClientManager where
  id : Nat
  deriving DecidableEq, Repr

/-- The `*rtc.Server` returned by `rtc.NewServer`. -/
structure RTCServer where
  id : Nat
  deriving DecidableEq, Repr

/-- The fields of the plugin configuration that `OnActivate` reads or writes.
Pointer-typed fields (dereferenced with `*` in the source) are options;
`none` is the nil pointer. -/
structure Configuration where
  DefaultEnabled : Option Bool
  UDPServerAddress : String
  TCPServerAddress : String
  UDPServerPort : Option Int
  TCPServerPort : Option Int
  ICEHostOverride : String
  TURNCredentialsExpirationMinutes : Option Int
  EnableIPv6 : Option Bool
  ServerSideTURN : Option Bool
  TURNStaticAuthSecret : String
  deriving DecidableEq, Repr

/-- The `rtc.TURNConfig` literal built by `OnActivate`. -/
structure TURNConfig where
  CredentialsExpirationMinutes : Int
  StaticAuthSecret : String
  deriving DecidableEq, Repr

/-- The `rtc.ServerConfig` literal built by `OnActivate`. -/
structure ServerConfig where
  ICEAddressUDP : String
  ICEAddressTCP : String
  ICEPortUDP : Int
  ICEPortTCP : Int
  ICEHostOverride : String
  ICEServers : List String
  TURNConfig : TURNConfig
  EnableIPv6 : Bool
  deriving DecidableEq, Repr

/-! ## Plugin state -/

/-- The shared fields of `Plugin` that activate.go touches, the state of the
channel `p.stopCh`, and the package-level variable `recordingJobRunner`. -/
structure Plugin where
  licenseChecker : Option LicenseChecker
  botSession : Option Session
  jobService : Option JobService
  rtcdManager : Option RTCDClientManager
  rtcServer : Option RTCServer
  nodeID : String
  stopChClosed : Bool
  recordingJobRunner : String
  deriving DecidableEq, Repr

/-- Names of the shared fields whose accesses are traced. -/
inductive Field where
  | licenseChecker
  | botSession
  | jobService
  | rtcdManager
  | rtcServer
  | nodeID
  | recordingJobRunner
  deriving DecidableEq, Repr

/-! ## Effects -/

/-- Log levels of `p.LogDebug`, `p.LogInfo`, `p.LogError`. -/
inductive Level where
  | debug
  | info
  | error
  deriving DecidableEq, Repr

/-- The goroutines started by `go` statements in `OnActivate`. -/
inductive Task where
  | jobRunner (jobService : JobService)
  | clusterEventsHandler
  | handlerID (clusterID : String)
  | wsWriter
  deriving DecidableEq, Repr

/-- One entry of the effect trace. -/
inductive Event where
  | log (level : Level) (text : String) (keyvals : List String)
  | NewLicenseChecker
  | isSingleHandler
  | cleanUpState
  | registerCommands
  | GetPluginStatus (id : String)
  | loadConfig
  | getConfiguration
  | IsValid
  | GetLicense
  | setConfiguration (cfg : Configuration)
  | NewMutex (key : String)
  | clusterLock
  | clusterUnlock
  | EnsureBotUser (owner : String)
  | CreateSession (userId : String)
  | RecordingsAllowed
  | newJobService (url : String)
  | UpdateJobRunner (jobService : JobService) (image : String)
  | RTCDAllowed
  | newRTCDClientManager (url : String)
  | newLogger
  | RTCMetrics
  | rtcNewServer (cfg : ServerConfig)
  | rtcServerStart (server : RTCServer)
  | setHandlerID (clusterID : String)
  | NewTicker
  | tickerStop
  | closeStopCh
  | rtcdManagerClose (m : RTCDClientManager)
  | rtcServerStop (server : RTCServer)
  | unregisterCommands
  | uninitTelemetry
  | RevokeSession (id : String)
  | lock
  | unlock
  | read (f : Field)
  | write (f : Field)
  | spawn (t : Task)
  deriving DecidableEq, Repr

/-- How a call ended: it returned (with a nil or non-nil error) or panicked. -/
inductive Outcome where
  | ret (err : Option Error)
  | panic
  deriving DecidableEq, Repr

/-- The result of running a method of `Plugin`: its outcome, the plugin state
it leaves, and its effect trace. -/
structure Run where
  out : Outcome
  p : Plugin
  tr : List Event
  deriving DecidableEq, Repr

/-! ## The collaborators -/

/-- The answers of everything activate.go calls but does not define: the
process environment, the manifest, the plugin API, the license checker, the
relay packages and the methods of `Plugin` and of the configuration that are
defined in other files. -/
structure World where
  /-- Value of `os.Getenv("MM_CALLS_DISABLE")`. -/
  envDisable : String
  /-- Value of `os.Getenv("MM_CALLS_IS_HANDLER")`. -/
  envIsHandler : String
  /-- Value of `manifest.Id`. -/
  manifestId : String
  /-- Value of `manifest.Props["calls_recorder_version"].(string)`; `none` when
  the `ok` of the type assertion is false. -/
  recorderVersion : Option String
  newLicenseChecker : LicenseChecker
  isSingleHandler : Bool
  cleanUpState : Option Error
  registerCommands : Option Error
  getPluginStatus : String → Except Error PluginStatus
  loadConfig : Option Error
  getConfiguration : Configuration
  isValid : Configuration → Option Error
  /-- Value of `isCloud(p.API.GetLicense())`. -/
  isCloud : Bool
  setConfiguration : Configuration → Option Error
  /-- Error of `cluster.NewMutex(p.API, key)`, if any. -/
  newMutex : String → Option Error
  ensureBotUser : String → Except Error String
  createSession : String → Except Error Session
  recordingsAllowed : Bool
  recordingsEnabled : Configuration → Bool
  getJobServiceURL : Configuration → String
  newJobService : String → Except Error JobService
  updateJobRunner : JobService → String → Option Error
  getRTCDURL : Configuration → String
  rtcdAllowed : Bool
  newRTCDClientManager : String → Except Error RTCDClientManager
  getICEServers : Configuration → Bool → List String
  rtcNewServer : ServerConfig → Except Error RTCServer
  rtcServerStart : RTCServer → Option Error
  /-- Error of the `n`-th call `p.setHandlerID(id)` of the handler goroutine, if any. -/
  setHandlerID : Nat → String → Option Error
  rtcdManagerClose : RTCDClientManager → Option Error
  rtcServerStop : RTCServer → Option Error
  unregisterCommands : Option Error
  uninitTelemetry : Option Error
  revokeSession : String → Option Error

/-! ## The embedded functions -/

/-- Prepend the effects `pre`, performed earlier, to the trace of `r`. -/
def Run.after (pre : List Event) (r : Run) : Run :=
  { r with tr := pre ++ r.tr }

/-- The recurring block `p.LogError(err.Error()); return err` of `OnActivate`. -/
def fail (err : Error) (p : Plugin) : Run :=
  ⟨.ret (some err), p, [.log .error err.text []]⟩

/-- The recurring block `if err != nil { p.LogError(err.Error()) }` of
`OnDeactivate`, which does not return. -/
def logIfErr : Option Error → List Event
  | some err => [.log .error err.text []]
  | none => []

/-- `func (p *Plugin) createBotSession() (*model.Session, error)`, lines 19-46.
The deferred `m.Unlock()` runs on every return that follows `m.Lock()`. -/
def createBotSession (w : World) : Except Error Session × List Event :=
  match w.newMutex "ensure_bot" with
  | some err => (.error err, [.NewMutex "ensure_bot"])
  | none =>
    match w.ensureBotUser w.manifestId with
    | .error err =>
      (.error err,
        [.NewMutex "ensure_bot", .clusterLock, .EnsureBotUser w.manifestId, .clusterUnlock])
    | .ok botID =>
      match w.createSession botID with
      | .error appErr =>
        (.error appErr,
          [.NewMutex "ensure_bot", .clusterLock, .EnsureBotUser w.manifestId,
            .CreateSession botID, .clusterUnlock])
      | .ok session =>
        (.ok session,
          [.NewMutex "ensure_bot", .clusterLock, .EnsureBotUser w.manifestId,
            .CreateSession botID, .clusterUnlock])

/-- The composite literal `rtc.ServerConfig{...}` of lines 182-196, with the
conditional assignment of `StaticAuthSecret`; `none` when one of the
dereferenced pointers is nil (the dereference panics). -/
def rtcServerConfig (w : World) (cfg : Configuration) : Option ServerConfig :=
  match cfg.UDPServerPort, cfg.TCPServerPort, cfg.TURNCredentialsExpirationMinutes,
    cfg.EnableIPv6, cfg.ServerSideTURN with
  | some udpPort, some tcpPort, some expiration, some ipv6, some serverSideTURN =>
    some {
      ICEAddressUDP := cfg.UDPServerAddress
      ICEAddressTCP := cfg.TCPServerAddress
      ICEPortUDP := udpPort
      ICEPortTCP := tcpPort
      ICEHostOverride := cfg.ICEHostOverride
      ICEServers := w.getICEServers cfg false
      TURNConfig := {
        CredentialsExpirationMinutes := expiration
        StaticAuthSecret := if serverSideTURN then cfg.TURNStaticAuthSecret else ""
      }
      EnableIPv6 := ipv6
    }
  | _, _, _, _, _ => none

/-- The body of the `if` of lines 140-157 of `OnActivate`: the external relay
manager. -/
def OnActivate.external (w : World) (rtcdURL : String) (status : PluginStatus)
    (p : Plugin) : Run :=
  Run.after [.newRTCDClientManager rtcdURL] <|
  match w.newRTCDClientManager rtcdURL with
  | .error err => fail (.wrap "failed to create rtcd manager" err) p
  | .ok rtcdManager =>
    ⟨.ret none, { p with rtcdManager := some rtcdManager },
      [.log .debug "rtcd client manager initialized successfully" [],
        .write .rtcdManager,
        .spawn .clusterEventsHandler,
        .log .debug "activated" ["ClusterID", status.ClusterId]]⟩

/-- Lines 182-218 of `OnActivate`: the embedded relay server. -/
def OnActivate.server (w : World) (cfg : Configuration) (status : PluginStatus)
    (p : Plugin) : Run :=
  match rtcServerConfig w cfg with
  | none => ⟨.panic, p, []⟩
  | some rtcServerConfig =>
    Run.after [.newLogger, .RTCMetrics, .rtcNewServer rtcServerConfig] <|
    match w.rtcNewServer rtcServerConfig with
    | .error err => fail err p
    | .ok rtcServer =>
      Run.after [.rtcServerStart rtcServer] <|
      match w.rtcServerStart rtcServer with
      | some err => fail err p
      | none =>
        ⟨.ret none, { p with nodeID := status.ClusterId, rtcServer := some rtcServer },
          [.lock, .write .nodeID, .write .rtcServer, .unlock,
            .spawn .clusterEventsHandler,
            .spawn .wsWriter,
            .log .debug "activated" ["ClusterID", status.ClusterId]]⟩

/-- Lines 159-218 of `OnActivate`: the `go` statement of the handler goroutine,
then the embedded relay server. -/
def OnActivate.embedded (w : World) (cfg : Configuration) (status : PluginStatus)
    (p : Plugin) : Run :=
  if w.envIsHandler ≠ "" then
    Run.after [.spawn (.handlerID status.ClusterId)] <|
    OnActivate.server w cfg status p
  else OnActivate.server w cfg status p

/-- Lines 140-218 of `OnActivate`: the choice of the relay backend. The
condition `rtcdURL != "" && p.licenseChecker.RTCDAllowed()` short-circuits. -/
def OnActivate.relay (w : World) (cfg : Configuration) (status : PluginStatus)
    (p : Plugin) : Run :=
  if w.getRTCDURL cfg ≠ "" then
    Run.after [.read .licenseChecker, .RTCDAllowed] <|
    if w.rtcdAllowed then OnActivate.external w (w.getRTCDURL cfg) status p
    else OnActivate.embedded w cfg status p
  else OnActivate.embedded w cfg status p

/-- Lines 106-138 of `OnActivate`, followed by the rest of the function: the
recording job service. -/
def OnActivate.recordings (w : World) (cfg : Configuration) (status : PluginStatus)
    (p : Plugin) : Run :=
  Run.after [.read .licenseChecker, .RecordingsAllowed] <|
  if w.recordingsAllowed && w.recordingsEnabled cfg then
    Run.after [.log .debug "initializing job service" [],
      .newJobService (w.getJobServiceURL cfg)] <|
    match w.newJobService (w.getJobServiceURL cfg) with
    | .error err => fail (.wrap "failed to create job service" err) p
    | .ok jobService =>
      match w.recorderVersion with
      | none => fail (.msg "failed to get recorder version from manifest") p
      | some recorderVersion =>
        Run.after [.write .recordingJobRunner, .spawn (.jobRunner jobService)] <|
        OnActivate.relay w cfg status
          { p with recordingJobRunner := "mattermost/calls-recorder:" ++ recorderVersion }
  else OnActivate.relay w cfg status p

/-- Lines 99-104 of `OnActivate`, followed by the rest of the function: the
bot session. -/
def OnActivate.session (w : World) (cfg : Configuration) (status : PluginStatus)
    (p : Plugin) : Run :=
  Run.after (createBotSession w).2 <|
  match (createBotSession w).1 with
  | .error err => fail err p
  | .ok session =>
    Run.after [.write .botSession] <|
    OnActivate.recordings w cfg status { p with botSession := some session }

/-- Lines 65-97 of `OnActivate`, followed by the rest of the function:
command registration, plugin status, configuration, Cloud override. -/
def OnActivate.commands (w : World) (p : Plugin) : Run :=
  Run.after [.registerCommands] <|
  match w.registerCommands with
  | some err => fail err p
  | none =>
    Run.after [.GetPluginStatus w.manifestId] <|
    match w.getPluginStatus w.manifestId with
    | .error appErr => fail appErr p
    | .ok status =>
      Run.after [.loadConfig] <|
      match w.loadConfig with
      | some err => fail err p
      | none =>
        Run.after [.getConfiguration, .IsValid] <|
        match w.isValid w.getConfiguration with
        | some err => fail err p
        | none =>
          Run.after [.GetLicense] <|
          if w.isCloud then
            Run.after [.setConfiguration { w.getConfiguration with DefaultEnabled := some true }] <|
            match w.setConfiguration { w.getConfiguration with DefaultEnabled := some true } with
            | some err => fail (.wrap "failed to set configuration" err) p
            | none =>
              OnActivate.session w { w.getConfiguration with DefaultEnabled := some true }
                status p
          else OnActivate.session w w.getConfiguration status p

/-- `func (p *Plugin) OnActivate() error`, lines 48-219. -/
def OnActivate (w : World) (p : Plugin) : Run :=
  Run.after [.log .debug "activating" []] <|
  if w.envDisable = "true" then
    ⟨.ret (some (.msg "disabled by environment flag")), p,
      [.log .info "disable flag is set, exiting" []]⟩
  else
    Run.after [.NewLicenseChecker, .write .licenseChecker, .isSingleHandler] <|
    if w.isSingleHandler then
      Run.after [.cleanUpState] <|
      match w.cleanUpState with
      | some err => fail err { p with licenseChecker := some w.newLicenseChecker }
      | none => OnActivate.commands w { p with licenseChecker := some w.newLicenseChecker }
    else OnActivate.commands w { p with licenseChecker := some w.newLicenseChecker }

/-- The goroutine of lines 123-137, started after `newJobService` succeeded
with `jobService`. It reads the package-level `recordingJobRunner` when it
runs. -/
def jobRunnerTask (w : World) (jobService : JobService) (p : Plugin) : Run :=
  Run.after [.log .debug "updating job runner" [], .read .recordingJobRunner,
    .UpdateJobRunner jobService p.recordingJobRunner] <|
  match w.updateJobRunner jobService p.recordingJobRunner with
  | some err =>
    ⟨.ret none, p, [.log .error (Error.wrap "failed to update job runner" err).text []]⟩
  | none =>
    ⟨.ret none, { p with jobService := some jobService },
      [.lock, .write .jobService, .unlock,
        .log .debug "job service initialized successfully" []]⟩

/-- What one `select` of the handler goroutine receives: a value from
`ticker.C`, or the closing of `p.stopCh`. -/
inductive Signal where
  | tick
  | stop
  deriving DecidableEq, Repr

/-- A run of the handler goroutine over the signals offered to it: its effect
trace, how many ticks and how many signals in all it received, and whether it
returned (`false`: it is waiting in `select` for the next signal). -/
structure HandlerRun where
  tr : List Event
  ticks : Nat
  received : Nat
  returned : Bool
  deriving DecidableEq, Repr

/-- The `for { select { ... } }` loop of lines 168-178; `n` is the number of
calls `p.setHandlerID` made so far. The deferred `ticker.Stop()` runs at each
`return`. -/
def handlerLoop (w : World) (clusterID : String) : Nat → List Signal → HandlerRun
  | _, [] => ⟨[], 0, 0, false⟩
  | _, .stop :: _ => ⟨[.tickerStop], 0, 1, true⟩
  | n, .tick :: rest =>
    match w.setHandlerID n clusterID with
    | some err =>
      ⟨[.setHandlerID clusterID, .log .error err.text [], .tickerStop], 1, 1, true⟩
    | none =>
      let r := handlerLoop w clusterID (n + 1) rest
      ⟨.setHandlerID clusterID :: r.tr, r.ticks + 1, r.received + 1, r.returned⟩

/-- The goroutine of lines 160-179, started with `status.ClusterId`. -/
def handlerTask (w : World) (clusterID : String) (signals : List Signal) : HandlerRun :=
  match w.setHandlerID 0 clusterID with
  | some err =>
    ⟨[.log .info "calls handler, setting state" ["clusterID", clusterID],
      .setHandlerID clusterID, .log .error err.text []], 0, 0, true⟩
  | none =>
    let r := handlerLoop w clusterID 1 signals
    ⟨[.log .info "calls handler, setting state" ["clusterID", clusterID],
      .setHandlerID clusterID, .NewTicker] ++ r.tr, r.ticks, r.received, r.returned⟩

/-- `func (p *Plugin) OnDeactivate() error`, lines 221-258. Closing a channel
that is already closed panics. -/
def OnDeactivate (w : World) (p : Plugin) : Run :=
  Run.after [.log .debug "deactivate" []] <|
  if p.stopChClosed then ⟨.panic, p, []⟩
  else
    ⟨.ret none, { p with stopChClosed := true },
      [.closeStopCh]
      ++ (.read .rtcdManager ::
        match p.rtcdManager with
        | some rtcdManager =>
          [.read .rtcdManager, .rtcdManagerClose rtcdManager]
            ++ logIfErr (w.rtcdManagerClose rtcdManager)
        | none => [])
      ++ (.read .rtcServer ::
        match p.rtcServer with
        | some rtcServer =>
          [.read .rtcServer, .rtcServerStop rtcServer] ++ logIfErr (w.rtcServerStop rtcServer)
        | none => [])
      ++ (.isSingleHandler ::
        if w.isSingleHandler then .cleanUpState :: logIfErr w.cleanUpState else [])
      ++ (.unregisterCommands :: logIfErr w.unregisterCommands)
      ++ (.uninitTelemetry :: logIfErr w.uninitTelemetry)
      ++ (.read .botSession ::
        match p.botSession with
        | some botSession =>
          [.read .botSession, .RevokeSession botSession.Id]
            ++ logIfErr (w.revokeSession botSession.Id)
        | none => [])⟩

/-! ## Vocabulary of the properties -/

/-- The configuration that `OnActivate` holds in `cfg` after line 97. -/
def activeConfiguration (w : World) : Configuration :=
  if w.isCloud then { w.getConfiguration with DefaultEnabled := some true }
  else w.getConfiguration

/-- Log entries. -/
def Event.isLog : Event → Bool
  | .log _ _ _ => true
  | _ => false

/-- Effects of the relay backends on the plugin: construction of either
backend, start of the embedded server, and assignments to `p.rtcdManager`,
`p.rtcServer` and `p.nodeID`. -/
def Event.isBackend : Event → Bool
  | .newRTCDClientManager _ => true
  | .rtcNewServer _ => true
  | .rtcServerStart _ => true
  | .write .rtcdManager => true
  | .write .rtcServer => true
  | .write .nodeID => true
  | _ => false

/-- Construction of a relay backend. -/
def Event.isBackendConstruct : Event → Bool
  | .newRTCDClientManager _ => true
  | .rtcNewServer _ => true
  | _ => false

/-- The teardown steps of `OnDeactivate`. -/
def Event.isTeardown : Event → Bool
  | .closeStopCh => true
  | .rtcdManagerClose _ => true
  | .rtcServerStop _ => true
  | .cleanUpState => true
  | .unregisterCommands => true
  | .uninitTelemetry => true
  | .RevokeSession _ => true
  | _ => false

/-- The teardown steps that apply to plugin state `p`, in the order in which
deactivation is specified to perform them. -/
def teardownSteps (w : World) (p : Plugin) : List Event :=
  [.closeStopCh]
  ++ (match p.rtcdManager with
      | some m => [.rtcdManagerClose m]
      | none => [])
  ++ (match p.rtcServer with
      | some server => [.rtcServerStop server]
      | none => [])
  ++ (if w.isSingleHandler then [.cleanUpState] else [])
  ++ [.unregisterCommands, .uninitTelemetry]
  ++ (match p.botSession with
      | some session => [.RevokeSession session.Id]
      | none => [])

/-- Effects that `OnActivate` can perform before line 106. -/
def Event.isSetup : Event → Bool
  | .log _ _ _ => true
  | .NewLicenseChecker => true
  | .isSingleHandler => true
  | .cleanUpState => true
  | .registerCommands => true
  | .GetPluginStatus _ => true
  | .loadConfig => true
  | .getConfiguration => true
  | .IsValid => true
  | .GetLicense => true
  | .setConfiguration _ => true
  | .NewMutex _ => true
  | .clusterLock => true
  | .clusterUnlock => true
  | .EnsureBotUser _ => true
  | .CreateSession _ => true
  | .write .licenseChecker => true
  | .write .botSession => true
  | _ => false

/-- Effects that `OnActivate` can perform before line 140: those of
`Event.isSetup` and those of the recording job service. -/
def Event.isEarly : Event → Bool
  | .RecordingsAllowed => true
  | .newJobService _ => true
  | .read .licenseChecker => true
  | .write .recordingJobRunner => true
  | .spawn (.jobRunner _) => true
  | ev => ev.isSetup

/-- The plugin state `q` differs from `p` at most in `licenseChecker`,
`botSession` and `recordingJobRunner`. -/
def SameBackend (p q : Plugin) : Prop :=
  q.rtcdManager = p.rtcdManager ∧ q.rtcServer = p.rtcServer ∧ q.nodeID = p.nodeID
    ∧ q.jobService = p.jobService ∧ q.stopChClosed = p.stopChClosed

/-- The run `r`, started in state `p`, either returned an error after effects
that all satisfy `E`, or it is `next status q` after such effects, for the
plugin status `status` and a state `q` that holds the new license checker
and the new bot session. -/
def Reaches (E : Event → Bool) (next : PluginStatus → Plugin → Run) (w : World)
    (p : Plugin) (r : Run) : Prop :=
  (∃ e pre q, r = ⟨.ret (some e), q, pre⟩ ∧ (∀ ev ∈ pre, E ev = true) ∧ SameBackend p q)
  ∨ (∃ status pre q, w.getPluginStatus w.manifestId = .ok status
      ∧ r = Run.after pre (next status q)
      ∧ (∀ ev ∈ pre, E ev = true) ∧ SameBackend p q
      ∧ q.licenseChecker = some w.newLicenseChecker
      ∧ ∃ session, (createBotSession w).1 = .ok session ∧ q.botSession = some session)

/-- The `go` statement of the handler goroutine. -/
def Event.isHandlerSpawn : Event → Bool
  | .spawn (.handlerID _) => true
  | _ => false

/-- The calls `p.setHandlerID(...)`. -/
def Event.isHandlerWrite : Event → Bool
  | .setHandlerID _ => true
  | _ => false

/-- The fields of the shared node state: node ID, active backend handle,
job-subsystem handle, session handle. -/
def Field.isShared : Field → Bool
  | .nodeID => true
  | .rtcdManager => true
  | .rtcServer => true
  | .jobService => true
  | .botSession => true
  | _ => false

/-- Reads and writes of a field of the shared node state. -/
def Event.isSharedAccess : Event → Bool
  | .read f => f.isShared
  | .write f => f.isShared
  | _ => false

/-- The effects that `OnDeactivate` can perform. -/
def Event.isDeactivation : Event → Bool
  | .log _ _ _ => true
  | .closeStopCh => true
  | .rtcdManagerClose _ => true
  | .rtcServerStop _ => true
  | .isSingleHandler => true
  | .cleanUpState => true
  | .unregisterCommands => true
  | .uninitTelemetry => true
  | .RevokeSession _ => true
  | .read .rtcdManager => true
  | .read .rtcServer => true
  | .read .botSession => true
  | _ => false

/-- The accesses to the shared node state that a trace performs while `p.mut`
is not held; `held` tells whether the mutex is held at the start. -/
def outsideLock : Bool → List Event → List Event
  | _, [] => []
  | held, ev :: rest =>
    if ev = .lock then outsideLock true rest
    else if ev = .unlock then outsideLock false rest
    else if !held && ev.isSharedAccess then ev :: outsideLock held rest
    else outsideLock held rest

/-- Whether `p.mut` is held after the trace, `none` when the trace locks the
mutex while it holds it or unlocks it while it does not. -/
def heldAfter : Bool → List Event → Option Bool
  | held, [] => some held
  | held, ev :: rest =>
    if ev = .lock then (if held then none else heldAfter true rest)
    else if ev = .unlock then (if held then heldAfter false rest else none)
    else heldAfter held rest

/-- The steps of `OnActivate`, in the order in which the activation sequence
is specified. -/
inductive Step where
  | disableCheck
  | licenseInit
  | cleanup
  | registerCommands
  | pluginStatus
  | loadConfig
  | validateConfig
  | cloudOverride
  | botSession
  | recordings
  | backend
  | spawn
  deriving DecidableEq, Repr

/-- The position of a step in the activation sequence. -/
def Step.idx : Step → Nat
  | .disableCheck => 0
  | .licenseInit => 1
  | .cleanup => 2
  | .registerCommands => 3
  | .pluginStatus => 4
  | .loadConfig => 5
  | .validateConfig => 6
  | .cloudOverride => 7
  | .botSession => 8
  | .recordings => 9
  | .backend => 10
  | .spawn => 11

/-- The steps in their specified order. -/
def Step.all : List Step :=
  [.disableCheck, .licenseInit, .cleanup, .registerCommands, .pluginStatus, .loadConfig,
    .validateConfig, .cloudOverride, .botSession, .recordings, .backend, .spawn]

/-- The step an effect belongs to. Log entries, the reads of
`p.licenseChecker` (made by two steps) and the effects of other functions
belong to none. The `go` statement of the handler goroutine, which stands
between the two backend branches, is counted with the backend step. -/
def Event.step : Event → Option Step
  | .NewLicenseChecker => some .licenseInit
  | .write .licenseChecker => some .licenseInit
  | .isSingleHandler => some .cleanup
  | .cleanUpState => some .cleanup
  | .registerCommands => some .registerCommands
  | .GetPluginStatus _ => some .pluginStatus
  | .loadConfig => some .loadConfig
  | .getConfiguration => some .validateConfig
  | .IsValid => some .validateConfig
  | .GetLicense => some .cloudOverride
  | .setConfiguration _ => some .cloudOverride
  | .NewMutex _ => some .botSession
  | .clusterLock => some .botSession
  | .clusterUnlock => some .botSession
  | .EnsureBotUser _ => some .botSession
  | .CreateSession _ => some .botSession
  | .write .botSession => some .botSession
  | .RecordingsAllowed => some .recordings
  | .newJobService _ => some .recordings
  | .write .recordingJobRunner => some .recordings
  | .spawn (.jobRunner _) => some .recordings
  | .RTCDAllowed => some .backend
  | .newRTCDClientManager _ => some .backend
  | .write .rtcdManager => some .backend
  | .spawn (.handlerID _) => some .backend
  | .newLogger => some .backend
  | .RTCMetrics => some .backend
  | .rtcNewServer _ => some .backend
  | .rtcServerStart _ => some .backend
  | .lock => some .backend
  | .unlock => some .backend
  | .write .nodeID => some .backend
  | .write .rtcServer => some .backend
  | .spawn .clusterEventsHandler => some .spawn
  | .spawn .wsWriter => some .spawn
  | _ => none

/-- The positions of the steps whose effects a trace holds, in trace order. -/
def stepTrace (tr : List Event) : List Nat :=
  tr.filterMap (fun ev => ev.step.map Step.idx)

/-- Log entries above debug level: `p.LogInfo` and `p.LogError`. -/
def Event.isReport : Event → Bool
  | .log .info _ _ => true
  | .log .error _ _ => true
  | _ => false

/-- The error with which the recording bootstrap fails, if it does: the gate
holds and `newJobService` returns an error, or the recorder version is
missing from the manifest. -/
def recordingsError (w : World) (cfg : Configuration) : Option Error :=
  if w.recordingsAllowed && w.recordingsEnabled cfg then
    match w.newJobService (w.getJobServiceURL cfg) with
    | .error e => some e
    | .ok _ =>
      match w.recorderVersion with
      | none => some (.msg "failed to get recorder version from manifest")
      | some _ => none
  else none

/-- The error that the construction or the start of the selected relay backend
returns, if one does: `newRTCDClientManager` when the rtcd URL is non-empty and
rtcd is licensed, else `rtc.NewServer` or `rtcServer.Start`. -/
def backendError (w : World) (cfg : Configuration) : Option Error :=
  if w.getRTCDURL cfg ≠ "" ∧ w.rtcdAllowed = true then
    match w.newRTCDClientManager (w.getRTCDURL cfg) with
    | .error e => some e
    | .ok _ => none
  else
    match rtcServerConfig w cfg with
    | none => none
    | some sc =>
      match w.rtcNewServer sc with
      | .error e => some e
      | .ok server => w.rtcServerStart server

/-- The error with which a step fails in world `w`, if it does. -/
def stepError (w : World) : Step → Option Error
  | .disableCheck =>
    if w.envDisable = "true" then some (.msg "disabled by environment flag") else none
  | .licenseInit => none
  | .cleanup => if w.isSingleHandler then w.cleanUpState else none
  | .registerCommands => w.registerCommands
  | .pluginStatus =>
    match w.getPluginStatus w.manifestId with
    | .error e => some e
    | .ok _ => none
  | .loadConfig => w.loadConfig
  | .validateConfig => w.isValid w.getConfiguration
  | .cloudOverride =>
    if w.isCloud then w.setConfiguration (activeConfiguration w) else none
  | .botSession =>
    match (createBotSession w).1 with
    | .error e => some e
    | .ok _ => none
  | .recordings => recordingsError w (activeConfiguration w)
  | .backend => backendError w (activeConfiguration w)
  | .spawn => none

/-- The first of the given steps that fails, with its error. -/
def firstFailureIn (w : World) : List Step → Option (Step × Error)
  | [] => none
  | s :: rest =>
    match stepError w s with
    | some e => some (s, e)
    | none => firstFailureIn w rest

/-- The first step of the activation sequence that fails, with its error. -/
def firstFailure (w : World) : Option (Step × Error) :=
  firstFailureIn w Step.all

/-- The call that defines a step, when the step applies in world `w` and is
one call. -/
def Step.marker (w : World) : Step → Option Event
  | .licenseInit => some .NewLicenseChecker
  | .cleanup => if w.isSingleHandler then some .cleanUpState else none
  | .registerCommands => some .registerCommands
  | .pluginStatus => some (.GetPluginStatus w.manifestId)
  | .loadConfig => some .loadConfig
  | .validateConfig => some .IsValid
  | .cloudOverride =>
    if w.isCloud then some (.setConfiguration (activeConfiguration w)) else none
  | .botSession => some (.NewMutex "ensure_bot")
  | .recordings =>
    if w.recordingsAllowed && w.recordingsEnabled (activeConfiguration w)
    then some (.newJobService (w.getJobServiceURL (activeConfiguration w))) else none
  | _ => none

/-- The log entry that reports the failure of step `k` with error `e`. -/
def failureReport (k : Step) (e : Error) : Event :=
  if k = .disableCheck then .log .info "disable flag is set, exiting" []
  else .log .error e.text []

/-- What `OnActivate` owes when step `k` is the first to fail, with error `e`:
it returns an error carrying `e`; the report of that failure ends the trace
and is its only log entry above debug level; the effects appear in the order
of the steps; none belongs to a step after `k`; the defining call of every
earlier step that applies has been made; step `k` itself was entered. -/
def FailFast (w : World) (k : Step) (e : Error) (r : Run) : Prop :=
  (∃ e', r.out = .ret (some e') ∧ e'.Is e = true
      ∧ r.tr.getLast? = some (failureReport k e'))
  ∧ (r.tr.filter Event.isReport).length = 1
  ∧ (stepTrace r.tr).Pairwise (· ≤ ·)
  ∧ (∀ s ∈ stepTrace r.tr, s ≤ k.idx)
  ∧ (∀ (j : Step) (ev : Event), j.idx < k.idx → j.marker w = some ev → ev ∈ r.tr)
  ∧ (k ≠ .disableCheck → k.idx ∈ stepTrace r.tr)

/-- The effects `pre` made so far are in step order, belong to steps up to
position `i`, hold no log entry above debug level, and hold the defining call
of every applicable step before position `i`. -/
def Pre (w : World) (i : Nat) (pre : List Event) : Prop :=
  (stepTrace pre).Pairwise (· ≤ ·)
  ∧ (∀ s ∈ stepTrace pre, s ≤ i)
  ∧ pre.filter Event.isReport = []
  ∧ (∀ (j : Step) (ev : Event), j.idx < i → j.marker w = some ev → ev ∈ pre)

/-- A plugin that has not been activated. -/
def Plugin.fresh : Plugin :=
  { licenseChecker := none, botSession := none, jobService := none, rtcdManager := none,
    rtcServer := none, nodeID := "", stopChClosed := false, recordingJobRunner := "" }

/-- A configuration with every pointer set and no rtcd URL. -/
def Configuration.sample : Configuration :=
  { DefaultEnabled := some false, UDPServerAddress := "", TCPServerAddress := "",
    UDPServerPort := some 8443, TCPServerPort := some 8443, ICEHostOverride := "",
    TURNCredentialsExpirationMinutes := some 1440, EnableIPv6 := some false,
    ServerSideTURN := some false, TURNStaticAuthSecret := "" }

/-- A world in which every collaborator succeeds: no flag set, not Cloud,
recordings and rtcd not licensed, no rtcd URL. -/
def World.sample : World :=
  { envDisable := "", envIsHandler := "", manifestId := "com.mattermost.calls",
    recorderVersion := some "v0.4.0", newLicenseChecker := ⟨1⟩, isSingleHandler := false,
    cleanUpState := none, registerCommands := none,
    getPluginStatus := fun _ => .ok ⟨"node1"⟩, loadConfig := none,
    getConfiguration := Configuration.sample, isValid := fun _ => none, isCloud := false,
    setConfiguration := fun _ => none, newMutex := fun _ => none,
    ensureBotUser := fun _ => .ok "bot1", createSession := fun u => .ok ⟨"session1", u⟩,
    recordingsAllowed := false, recordingsEnabled := fun _ => false,
    getJobServiceURL := fun _ => "http://jobs:4545", newJobService := fun _ => .ok ⟨2⟩,
    updateJobRunner := fun _ _ => none, getRTCDURL := fun _ => "", rtcdAllowed := false,
    newRTCDClientManager := fun _ => .ok ⟨3⟩, getICEServers := fun _ _ => [],
    rtcNewServer := fun _ => .ok ⟨4⟩, rtcServerStart := fun _ => none,
    setHandlerID := fun _ _ => none, rtcdManagerClose := fun _ => none,
    rtcServerStop := fun _ => none, unregisterCommands := none, uninitTelemetry := none,
    revokeSession := fun _ => none }

/-- The rtcd URL `relay.example:8443` is configured and rtcd is licensed; the
handler flag is set. -/
def World.delegating : World :=
  { World.sample with
    getRTCDURL := fun _ => "relay.example:8443", rtcdAllowed := true, envIsHandler := "true" }

/-- The disable flag is set. -/
def World.disabled : World :=
  { World.sample with envDisable := "true" }

/-- Every teardown step fails; this node is the single handler. -/
def World.failingTeardown : World :=
  { World.sample with
    isSingleHandler := true,
    cleanUpState := some (.msg "cleanup failed"),
    rtcdManagerClose := fun _ => some (.msg "close failed"),
    rtcServerStop := fun _ => some (.msg "stop failed"),
    unregisterCommands := some (.msg "unregister failed"),
    uninitTelemetry := some (.msg "telemetry failed"),
    revokeSession := fun _ => some (.msg "revoke failed") }

/-- A plugin after an activation with the embedded server. -/
def Plugin.active : Plugin :=
  { licenseChecker := some ⟨1⟩, botSession := some ⟨"session1", "bot1"⟩, jobService := none,
    rtcdManager := none, rtcServer := some ⟨4⟩, nodeID := "node1", stopChClosed := false,
    recordingJobRunner := "" }

/-- The embedded server cannot be constructed: `rtc.NewServer` fails. -/
def World.serverFails : World :=
  { World.sample with rtcNewServer := fun _ => .error (.msg "listen failed") }

/-- The handler flag is set and the embedded server is used. -/
def World.handler : World :=
  { World.sample with envIsHandler := "true" }

/-- The embedded server is constructed but cannot be started. -/
def World.startFails : World :=
  { World.sample with rtcServerStart := fun _ => some (.msg "bind failed") }

@[simp]
theorem Run.after_out (pre : List Event) (r : Run) : (Run.after pre r).out = r.out := rfl

@[simp]
theorem Run.after_p (pre : List Event) (r : Run) : (Run.after pre r).p = r.p := rfl

@[simp]
theorem Run.after_tr (pre : List Event) (r : Run) : (Run.after pre r).tr = pre ++ r.tr := rfl

@[simp]
theorem fail_out (err : Error) (p : Plugin) : (fail err p).out = .ret (some err) := rfl

@[simp]
theorem fail_p (err : Error) (p : Plugin) : (fail err p).p = p := rfl

@[simp]
theorem fail_tr (err : Error) (p : Plugin) : (fail err p).tr = [.log .error err.text []] := rfl

theorem Event.isEarly_of_isSetup (ev : Event) (h : ev.isSetup = true) : ev.isEarly = true := by
  cases ev with
  | write f => cases f <;> simp_all [Event.isEarly, Event.isSetup]
  | _ => simp_all [Event.isEarly, Event.isSetup]

theorem SameBackend.refl (p : Plugin) : SameBackend p p := ⟨rfl, rfl, rfl, rfl, rfl⟩

theorem SameBackend.trans (p q r : Plugin) (h1 : SameBackend p q) (h2 : SameBackend q r) :
    SameBackend p r := by
  obtain ⟨a1, a2, a3, a4, a5⟩ := h1
  obtain ⟨b1, b2, b3, b4, b5⟩ := h2
  exact ⟨b1.trans a1, b2.trans a2, b3.trans a3, b4.trans a4, b5.trans a5⟩

theorem Run.after_after (a b : List Event) (r : Run) :
    Run.after a (Run.after b r) = Run.after (a ++ b) r := by
  simp [Run.after]

theorem Reaches.after (E : Event → Bool) (next : PluginStatus → Plugin → Run) (w : World)
    (p p0 : Plugin) (r : Run)
    (pre : List Event) (hpre : ∀ ev ∈ pre, E ev = true) (hp : SameBackend p0 p)
    (h : Reaches E next w p r) : Reaches E next w p0 (Run.after pre r) := by
  rcases h with ⟨e, t, q, rfl, ht, hq⟩ | ⟨status, t, q, hs, rfl, ht, hq, hl, hb⟩
  · refine Or.inl ⟨e, pre ++ t, q, rfl, ?_, hp.trans _ _ _ hq⟩
    intro ev hev
    rcases List.mem_append.1 hev with h | h
    · exact hpre ev h
    · exact ht ev h
  · refine Or.inr ⟨status, pre ++ t, q, hs, Run.after_after _ _ _, ?_, hp.trans _ _ _ hq, hl, hb⟩
    intro ev hev
    rcases List.mem_append.1 hev with h | h
    · exact hpre ev h
    · exact ht ev h

theorem Reaches.fail (E : Event → Bool) (next : PluginStatus → Plugin → Run) (w : World)
    (p : Plugin) (e : Error) (hE : ∀ t, E (.log .error t []) = true) :
    Reaches E next w p (fail e p) :=
  Or.inl ⟨e, _, p, rfl, by simp [hE], SameBackend.refl p⟩

theorem createBotSession_isSetup (w : World) :
    ∀ ev ∈ (createBotSession w).2, ev.isSetup = true := by
  unfold createBotSession
  cases h1 : w.newMutex "ensure_bot" with
  | some e => simp [Event.isSetup]
  | none =>
    cases h2 : w.ensureBotUser w.manifestId with
    | error e => simp [Event.isSetup]
    | ok botID =>
      cases h3 : w.createSession botID <;> simp [h3, Event.isSetup]

theorem session_reaches (w : World) (cfg : Configuration) (status : PluginStatus)
    (p : Plugin) (hs : w.getPluginStatus w.manifestId = .ok status)
    (hl : p.licenseChecker = some w.newLicenseChecker) :
    Reaches Event.isSetup (OnActivate.recordings w cfg) w p
      (OnActivate.session w cfg status p) := by
  unfold OnActivate.session
  refine Reaches.after _ _ w p p _ _ (createBotSession_isSetup w) (SameBackend.refl p) ?_
  cases hc : (createBotSession w).1 with
  | error e => exact Reaches.fail _ _ w p _ (by simp [Event.isSetup])
  | ok session =>
    exact Or.inr ⟨status, [.write .botSession], _, hs, rfl, by simp [Event.isSetup],
      ⟨rfl, rfl, rfl, rfl, rfl⟩, hl, session, hc, rfl⟩

theorem commands_reaches (w : World) (p : Plugin)
    (hl : p.licenseChecker = some w.newLicenseChecker) :
    Reaches Event.isSetup (OnActivate.recordings w (activeConfiguration w)) w p
      (OnActivate.commands w p) := by
  have hlog : ∀ t, Event.isSetup (.log .error t []) = true := by simp [Event.isSetup]
  unfold OnActivate.commands
  refine Reaches.after _ _ w p p _ _ (by simp [Event.isSetup]) (SameBackend.refl p) ?_
  cases w.registerCommands with
  | some e => exact Reaches.fail _ _ w p _ hlog
  | none =>
    refine Reaches.after _ _ w p p _ _ (by simp [Event.isSetup]) (SameBackend.refl p) ?_
    cases hs : w.getPluginStatus w.manifestId with
    | error e => exact Reaches.fail _ _ w p _ hlog
    | ok status =>
      refine Reaches.after _ _ w p p _ _ (by simp [Event.isSetup]) (SameBackend.refl p) ?_
      cases w.loadConfig with
      | some e => exact Reaches.fail _ _ w p _ hlog
      | none =>
        refine Reaches.after _ _ w p p _ _ (by simp [Event.isSetup]) (SameBackend.refl p) ?_
        cases w.isValid w.getConfiguration with
        | some e => exact Reaches.fail _ _ w p _ hlog
        | none =>
          refine Reaches.after _ _ w p p _ _ (by simp [Event.isSetup]) (SameBackend.refl p) ?_
          unfold activeConfiguration
          cases w.isCloud with
          | false => simpa using session_reaches w _ status p hs hl
          | true =>
            simp only [if_true]
            refine Reaches.after _ _ w p p _ _ (by simp [Event.isSetup]) (SameBackend.refl p) ?_
            cases w.setConfiguration _ with
            | some e => exact Reaches.fail _ _ w p _ hlog
            | none => exact session_reaches w _ status p hs hl

/-- Every run of `OnActivate` either returns an error after setup effects
only, or is the recording bootstrap and what follows it, after setup effects
only. -/
theorem OnActivate_reaches_recordings (w : World) (p : Plugin) :
    Reaches Event.isSetup (OnActivate.recordings w (activeConfiguration w)) w p
      (OnActivate w p) := by
  unfold OnActivate
  refine Reaches.after _ _ w p p _ _ (by simp [Event.isSetup]) (SameBackend.refl p) ?_
  by_cases hd : w.envDisable = "true"
  · rw [if_pos hd]
    exact Or.inl ⟨_, _, p, rfl, by simp [Event.isSetup], SameBackend.refl p⟩
  · rw [if_neg hd]
    refine Reaches.after _ _ w _ p _ _ (by simp [Event.isSetup]) ⟨rfl, rfl, rfl, rfl, rfl⟩ ?_
    cases w.isSingleHandler with
    | false => simpa using commands_reaches w _ rfl
    | true =>
      simp only [if_true]
      refine Reaches.after _ _ w _ _ _ _ (by simp [Event.isSetup]) (SameBackend.refl _) ?_
      cases w.cleanUpState with
      | some e => exact Reaches.fail _ _ w _ _ (by simp [Event.isSetup])
      | none => exact commands_reaches w _ rfl

theorem recordings_reaches (w : World) (cfg : Configuration) (status : PluginStatus)
    (p : Plugin) (hs : w.getPluginStatus w.manifestId = .ok status)
    (hl : p.licenseChecker = some w.newLicenseChecker)
    (hb : ∃ session, (createBotSession w).1 = .ok session ∧ p.botSession = some session) :
    Reaches Event.isEarly (OnActivate.relay w cfg) w p
      (OnActivate.recordings w cfg status p) := by
  have hlog : ∀ t, Event.isEarly (.log .error t []) = true := by
    simp [Event.isEarly, Event.isSetup]
  unfold OnActivate.recordings
  refine Reaches.after _ _ w p p _ _ (by simp [Event.isEarly]) (SameBackend.refl p) ?_
  by_cases hg : (w.recordingsAllowed && w.recordingsEnabled cfg) = true
  · rw [if_pos hg]
    refine Reaches.after _ _ w p p _ _ (by simp [Event.isEarly, Event.isSetup])
      (SameBackend.refl p) ?_
    cases w.newJobService (w.getJobServiceURL cfg) with
    | error e => exact Reaches.fail _ _ w p _ hlog
    | ok js =>
      cases w.recorderVersion with
      | none => exact Reaches.fail _ _ w p _ hlog
      | some v =>
        exact Or.inr ⟨status, _, _, hs, rfl, by simp [Event.isEarly],
          ⟨rfl, rfl, rfl, rfl, rfl⟩, hl, hb⟩
  · rw [if_neg hg]
    exact Or.inr ⟨status, [], p, hs, rfl, by simp, SameBackend.refl p, hl, hb⟩

/-- Every run of `OnActivate` either returns an error after early effects
only, or is the choice of the relay backend after early effects only. -/
theorem OnActivate_reaches_relay (w : World) (p : Plugin) :
    Reaches Event.isEarly (OnActivate.relay w (activeConfiguration w)) w p
      (OnActivate w p) := by
  rcases OnActivate_reaches_recordings w p with
    ⟨e, t, q, h, ht, hq⟩ | ⟨status, t, q, hs, h, ht, hq, hl, hb⟩
  · exact Or.inl ⟨e, t, q, h, fun ev hev => Event.isEarly_of_isSetup ev (ht ev hev), hq⟩
  · rw [h]
    exact Reaches.after _ _ w q p _ _ (fun ev hev => Event.isEarly_of_isSetup ev (ht ev hev)) hq
      (recordings_reaches w _ status q hs hl hb)

theorem filter_eq_nil_of_forall (f E : Event → Bool) (l : List Event)
    (hl : ∀ ev ∈ l, E ev = true) (hf : ∀ ev, E ev = true → f ev = false) :
    l.filter f = [] := by
  rw [List.filter_eq_nil_iff]
  intro ev hev
  simp [hf ev (hl ev hev)]

theorem isBackend_of_isEarly (ev : Event) (h : ev.isEarly = true) : ev.isBackend = false := by
  cases ev with
  | write f => cases f <;> simp_all [Event.isEarly, Event.isSetup, Event.isBackend]
  | _ => simp_all [Event.isEarly, Event.isSetup, Event.isBackend]

theorem isBackendConstruct_of_isEarly (ev : Event) (h : ev.isEarly = true) :
    ev.isBackendConstruct = false := by
  cases ev <;> simp_all [Event.isEarly, Event.isSetup, Event.isBackendConstruct]

theorem server_backend (w : World) (cfg : Configuration) (status : PluginStatus) (p : Plugin)
    (h : (OnActivate.server w cfg status p).out = .ret none) :
    ∃ sc server, rtcServerConfig w cfg = some sc
        ∧ w.rtcNewServer sc = .ok server
        ∧ (OnActivate.server w cfg status p).p.rtcServer = some server
        ∧ (OnActivate.server w cfg status p).p.nodeID = status.ClusterId
        ∧ (OnActivate.server w cfg status p).p.rtcdManager = p.rtcdManager
        ∧ (OnActivate.server w cfg status p).tr.filter Event.isBackend
            = [.rtcNewServer sc, .rtcServerStart server, .write .nodeID, .write .rtcServer] := by
  unfold OnActivate.server at h ⊢
  cases hsc : rtcServerConfig w cfg with
  | none => simp [hsc] at h
  | some sc =>
    cases hsrv : w.rtcNewServer sc with
    | error e => simp [hsc, hsrv] at h
    | ok server =>
      cases hst : w.rtcServerStart server with
      | some e => simp [hsc, hsrv, hst] at h
      | none => simp [hsc, hsrv, hst, Event.isBackend, List.filter_cons]

theorem embedded_backend (w : World) (cfg : Configuration) (status : PluginStatus) (p : Plugin)
    (h : (OnActivate.embedded w cfg status p).out = .ret none) :
    ∃ sc server, rtcServerConfig w cfg = some sc
        ∧ w.rtcNewServer sc = .ok server
        ∧ (OnActivate.embedded w cfg status p).p.rtcServer = some server
        ∧ (OnActivate.embedded w cfg status p).p.nodeID = status.ClusterId
        ∧ (OnActivate.embedded w cfg status p).p.rtcdManager = p.rtcdManager
        ∧ (OnActivate.embedded w cfg status p).tr.filter Event.isBackend
            = [.rtcNewServer sc, .rtcServerStart server, .write .nodeID, .write .rtcServer] := by
  unfold OnActivate.embedded at h ⊢
  by_cases hh : w.envIsHandler = ""
  · simp only [hh, ne_eq, not_true_eq_false, if_false] at h ⊢
    exact server_backend w cfg status p h
  · simp only [hh, ne_eq, not_false_eq_true, if_true, Run.after_out] at h ⊢
    obtain ⟨sc, server, h1, h2, h3, h4, h5, h6⟩ := server_backend w cfg status p h
    exact ⟨sc, server, h1, h2, h3, h4, h5, by simp [h6, Event.isBackend, List.filter_cons]⟩

/-- What a successful choice of the relay backend leaves behind. -/
theorem relay_backend (w : World) (cfg : Configuration) (status : PluginStatus) (p : Plugin)
    (h : (OnActivate.relay w cfg status p).out = .ret none) :
    ((w.getRTCDURL cfg ≠ "" ∧ w.rtcdAllowed = true) →
      ∃ m, w.newRTCDClientManager (w.getRTCDURL cfg) = .ok m
        ∧ (OnActivate.relay w cfg status p).p.rtcdManager = some m
        ∧ (OnActivate.relay w cfg status p).p.rtcServer = p.rtcServer
        ∧ (OnActivate.relay w cfg status p).p.nodeID = p.nodeID
        ∧ (OnActivate.relay w cfg status p).tr.filter Event.isBackend
            = [.newRTCDClientManager (w.getRTCDURL cfg), .write .rtcdManager])
    ∧ (¬ (w.getRTCDURL cfg ≠ "" ∧ w.rtcdAllowed = true) →
      ∃ sc server, rtcServerConfig w cfg = some sc
        ∧ w.rtcNewServer sc = .ok server
        ∧ (OnActivate.relay w cfg status p).p.rtcServer = some server
        ∧ (OnActivate.relay w cfg status p).p.nodeID = status.ClusterId
        ∧ (OnActivate.relay w cfg status p).p.rtcdManager = p.rtcdManager
        ∧ (OnActivate.relay w cfg status p).tr.filter Event.isBackend
            = [.rtcNewServer sc, .rtcServerStart server, .write .nodeID, .write .rtcServer]) := by
  unfold OnActivate.relay at h ⊢
  by_cases hurl : w.getRTCDURL cfg = ""
  · simp only [hurl, ne_eq, not_true_eq_false, if_false] at h ⊢
    simpa using embedded_backend w cfg status p h
  · cases hal : w.rtcdAllowed with
    | false =>
      simp only [hurl, hal, ne_eq, not_false_eq_true, if_true, Run.after_out] at h ⊢
      simpa [Event.isBackend, List.filter_cons] using
        embedded_backend w cfg status p (by simpa using h)
    | true =>
      simp only [hurl, hal, ne_eq, not_false_eq_true, if_true, Run.after_out] at h ⊢
      unfold OnActivate.external at h ⊢
      cases hm : w.newRTCDClientManager (w.getRTCDURL cfg) with
      | error e => simp [hm] at h
      | ok m => simp [hm, Event.isBackend, List.filter_cons]

theorem server_constructs (w : World) (cfg : Configuration) (status : PluginStatus)
    (p : Plugin) :
    ((OnActivate.server w cfg status p).tr.filter Event.isBackendConstruct).length ≤ 1 := by
  unfold OnActivate.server
  cases hsc : rtcServerConfig w cfg with
  | none => simp
  | some sc =>
    cases hsrv : w.rtcNewServer sc with
    | error e => simp [hsrv, Event.isBackendConstruct, List.filter_cons]
    | ok server =>
      cases hst : w.rtcServerStart server <;>
        simp [hsrv, hst, Event.isBackendConstruct, List.filter_cons]

theorem embedded_constructs (w : World) (cfg : Configuration) (status : PluginStatus)
    (p : Plugin) :
    ((OnActivate.embedded w cfg status p).tr.filter Event.isBackendConstruct).length ≤ 1 := by
  unfold OnActivate.embedded
  by_cases hh : w.envIsHandler = ""
  · simpa [hh] using server_constructs w cfg status p
  · simpa [hh, Event.isBackendConstruct, List.filter_cons] using server_constructs w cfg status p

theorem relay_constructs (w : World) (cfg : Configuration) (status : PluginStatus)
    (p : Plugin) :
    ((OnActivate.relay w cfg status p).tr.filter Event.isBackendConstruct).length ≤ 1 := by
  unfold OnActivate.relay
  by_cases hurl : w.getRTCDURL cfg = ""
  · simpa [hurl] using embedded_constructs w cfg status p
  · cases hal : w.rtcdAllowed with
    | false =>
      simpa [hurl, Event.isBackendConstruct, List.filter_cons] using
        embedded_constructs w cfg status p
    | true =>
      unfold OnActivate.external
      cases hm : w.newRTCDClientManager (w.getRTCDURL cfg) <;>
        simp [hurl, hm, Event.isBackendConstruct, List.filter_cons]

theorem logIfErr_teardown (e : Option Error) :
    (logIfErr e).filter Event.isTeardown = [] := by
  cases e <;> rfl

theorem isHandlerSpawn_of_isEarly (ev : Event) (h : ev.isEarly = true) :
    ev.isHandlerSpawn = false := by
  cases ev with
  | spawn t => cases t <;> simp_all [Event.isEarly, Event.isSetup, Event.isHandlerSpawn]
  | _ => simp_all [Event.isEarly, Event.isSetup, Event.isHandlerSpawn]

theorem server_unchanged (w : World) (cfg : Configuration) (status : PluginStatus)
    (p : Plugin) (h : (OnActivate.server w cfg status p).out ≠ .ret none)
    (hc : ∃ ev ∈ (OnActivate.server w cfg status p).tr, ev.isBackendConstruct = true) :
    (∃ e, (OnActivate.server w cfg status p).out = .ret (some e))
    ∧ (OnActivate.server w cfg status p).p = p := by
  unfold OnActivate.server at h hc ⊢
  cases hsc : rtcServerConfig w cfg with
  | none => simp [hsc] at hc
  | some sc =>
    cases hsrv : w.rtcNewServer sc with
    | error e => simp [hsc, hsrv]
    | ok server =>
      cases hst : w.rtcServerStart server with
      | some e => simp [hsc, hsrv, hst]
      | none => simp [hsc, hsrv, hst] at h

theorem relay_unchanged (w : World) (cfg : Configuration) (status : PluginStatus)
    (p : Plugin) (h : (OnActivate.relay w cfg status p).out ≠ .ret none)
    (hc : ∃ ev ∈ (OnActivate.relay w cfg status p).tr, ev.isBackendConstruct = true) :
    (∃ e, (OnActivate.relay w cfg status p).out = .ret (some e))
    ∧ (OnActivate.relay w cfg status p).p = p := by
  have hemb : (OnActivate.embedded w cfg status p).out ≠ .ret none →
      (∃ ev ∈ (OnActivate.embedded w cfg status p).tr, ev.isBackendConstruct = true) →
      (∃ e, (OnActivate.embedded w cfg status p).out = .ret (some e))
      ∧ (OnActivate.embedded w cfg status p).p = p := by
    unfold OnActivate.embedded
    by_cases hh : w.envIsHandler = ""
    · simpa [hh] using server_unchanged w cfg status p
    · simpa [hh, Event.isBackendConstruct] using server_unchanged w cfg status p
  unfold OnActivate.relay at h hc ⊢
  by_cases hurl : w.getRTCDURL cfg = ""
  · simp only [hurl, ne_eq, not_true_eq_false, if_false] at h hc ⊢
    exact hemb h hc
  · cases hal : w.rtcdAllowed with
    | false =>
      simp only [hurl, hal, ne_eq, not_false_eq_true, if_true, Run.after_out, Run.after_p,
        Run.after_tr] at h hc ⊢
      exact hemb (by simpa using h) (by simpa [Event.isBackendConstruct] using hc)
    | true =>
      simp only [hurl, hal, ne_eq, not_false_eq_true, if_true, Run.after_out, Run.after_p,
        Run.after_tr] at h hc ⊢
      unfold OnActivate.external at h ⊢
      cases hm : w.newRTCDClientManager (w.getRTCDURL cfg) with
      | error e => simp [hm]
      | ok m => simp [hm] at h

theorem server_no_handler_spawn (w : World) (cfg : Configuration) (status : PluginStatus)
    (p : Plugin) : (OnActivate.server w cfg status p).tr.filter Event.isHandlerSpawn = [] := by
  unfold OnActivate.server
  cases hsc : rtcServerConfig w cfg with
  | none => simp
  | some sc =>
    cases hsrv : w.rtcNewServer sc with
    | error e => simp [hsrv, Event.isHandlerSpawn, List.filter_cons]
    | ok server =>
      cases hst : w.rtcServerStart server <;>
        simp [hsrv, hst, Event.isHandlerSpawn, List.filter_cons]

theorem embedded_handler_spawn (w : World) (cfg : Configuration) (status : PluginStatus)
    (p : Plugin) :
    (OnActivate.embedded w cfg status p).tr.filter Event.isHandlerSpawn
      = if w.envIsHandler ≠ "" then [.spawn (.handlerID status.ClusterId)] else [] := by
  unfold OnActivate.embedded
  by_cases hh : w.envIsHandler = ""
  · simp [hh, server_no_handler_spawn]
  · simp [hh, server_no_handler_spawn, Event.isHandlerSpawn, List.filter_cons]

theorem relay_handler_spawn (w : World) (cfg : Configuration) (status : PluginStatus)
    (p : Plugin) :
    (OnActivate.relay w cfg status p).tr.filter Event.isHandlerSpawn
      = if w.envIsHandler ≠ "" ∧ ¬ (w.getRTCDURL cfg ≠ "" ∧ w.rtcdAllowed = true)
        then [.spawn (.handlerID status.ClusterId)] else [] := by
  unfold OnActivate.relay
  by_cases hurl : w.getRTCDURL cfg = ""
  · simp [hurl, embedded_handler_spawn]
  · cases hal : w.rtcdAllowed with
    | false => simp [hurl, embedded_handler_spawn, Event.isHandlerSpawn, List.filter_cons]
    | true =>
      unfold OnActivate.external
      cases hm : w.newRTCDClientManager (w.getRTCDURL cfg) <;>
        simp [hurl, hm, Event.isHandlerSpawn, List.filter_cons]

theorem handlerTask_first_write (w : World) (clusterID : String) (signals : List Signal) :
    ((handlerTask w clusterID signals).tr.filter Event.isHandlerWrite).head?
      = some (.setHandlerID clusterID) := by
  unfold handlerTask
  cases w.setHandlerID 0 clusterID <;> simp [Event.isHandlerWrite, List.filter_cons]

theorem handlerLoop_spec (w : World) (clusterID : String) (signals : List Signal) :
    ∀ n, w.setHandlerID n clusterID = none →
    (handlerLoop w clusterID (n + 1) signals).tr.filter Event.isHandlerWrite
        = List.replicate (handlerLoop w clusterID (n + 1) signals).ticks
            (.setHandlerID clusterID)
    ∧ (handlerLoop w clusterID (n + 1) signals).received ≤ signals.length
    ∧ (handlerLoop w clusterID (n + 1) signals).ticks
        = (signals.take (handlerLoop w clusterID (n + 1) signals).received).count .tick
    ∧ (∀ m e, n ≤ m → w.setHandlerID m clusterID = some e →
        n + (handlerLoop w clusterID (n + 1) signals).ticks ≤ m)
    ∧ (Signal.stop ∈ signals.take (handlerLoop w clusterID (n + 1) signals).received →
        (signals.take (handlerLoop w clusterID (n + 1) signals).received).getLast?
          = some .stop)
    ∧ ((handlerLoop w clusterID (n + 1) signals).returned = true ↔
        ((∃ e, w.setHandlerID (n + (handlerLoop w clusterID (n + 1) signals).ticks) clusterID
            = some e)
          ∨ Signal.stop ∈ signals.take (handlerLoop w clusterID (n + 1) signals).received))
    ∧ ((handlerLoop w clusterID (n + 1) signals).returned = true →
        ∀ rest, handlerLoop w clusterID (n + 1)
            (signals.take (handlerLoop w clusterID (n + 1) signals).received ++ rest)
          = handlerLoop w clusterID (n + 1) signals)
    ∧ ((handlerLoop w clusterID (n + 1) signals).returned = false →
        (handlerLoop w clusterID (n + 1) signals).received = signals.length) := by
  induction signals with
  | nil =>
    intro n hn
    simp [handlerLoop, hn]
    intro m e hm he
    rcases Nat.lt_or_ge n m with h | h
    · omega
    · have : m = n := by omega
      subst this
      simp [hn] at he
  | cons s rest ih =>
    intro n hn
    cases s with
    | stop =>
      simp [handlerLoop, hn, Event.isHandlerWrite]
      intro m e hm he
      rcases Nat.lt_or_ge n m with h | h
      · omega
      · have : m = n := by omega
        subst this
        simp [hn] at he
    | tick =>
      cases hw : w.setHandlerID (n + 1) clusterID with
      | some e =>
        simp [handlerLoop, hw, Event.isHandlerWrite, List.filter_cons]
        intro m e' hm he
        rcases Nat.lt_or_ge n m with h | h
        · omega
        · have : m = n := by omega
          subst this
          simp [hn] at he
      | none =>
        obtain ⟨a, b, c, d, e, f, g, h⟩ := ih (n + 1) hw
        simp only [handlerLoop, hw]
        refine ⟨?_, ?_, ?_, ?_, ?_, ?_, ?_, ?_⟩
        · simp [Event.isHandlerWrite, List.filter_cons, a, List.replicate_succ]
        · simpa using b
        · simp [List.take_succ_cons, List.count_cons]
          exact c
        · intro m e' hm he
          rcases Nat.lt_or_ge n m with h1 | h1
          · have := d m e' (by omega) he
            omega
          · have : m = n := by omega
            subst this
            simp [hn] at he
        · intro hs
          simp only [List.take_succ_cons] at hs ⊢
          have hs' : Signal.stop ∈
              List.take (handlerLoop w clusterID (n + 1 + 1) rest).received rest := by
            simpa using hs
          have := e hs'
          rw [List.getLast?_cons]
          simp [this]
        · rw [f]
          simp only [List.take_succ_cons, List.mem_cons]
          have e1 : n + ((handlerLoop w clusterID (n + 1 + 1) rest).ticks + 1)
              = n + 1 + (handlerLoop w clusterID (n + 1 + 1) rest).ticks := by omega
          rw [e1]
          simp
        · intro hr rest'
          simp only [List.append_eq, g hr rest']
        · intro hr
          simp [h hr]

theorem not_lock_of_isEarly (ev : Event) (h : ev.isEarly = true) :
    ev ≠ .lock ∧ ev ≠ .unlock := by
  cases ev <;> simp_all [Event.isEarly, Event.isSetup]

theorem shared_of_isEarly (ev : Event) (h : ev.isEarly = true)
    (hs : ev.isSharedAccess = true) : ev = .write .botSession := by
  cases ev with
  | write f => cases f <;> simp_all [Event.isEarly, Event.isSetup, Event.isSharedAccess,
      Field.isShared]
  | read f => cases f <;> simp_all [Event.isEarly, Event.isSetup, Event.isSharedAccess,
      Field.isShared]
  | _ => simp_all [Event.isEarly, Event.isSetup, Event.isSharedAccess]

theorem outsideLock_append (a b : List Event) (held : Bool)
    (ha : ∀ ev ∈ a, ev ≠ .lock ∧ ev ≠ .unlock) :
    outsideLock held (a ++ b) = outsideLock held a ++ outsideLock held b := by
  induction a with
  | nil => simp [outsideLock]
  | cons ev rest ih =>
    have h1 := ha ev (List.mem_cons_self _ _)
    have ih' := ih (fun e he => ha e (List.mem_cons_of_mem _ he))
    simp only [List.cons_append, outsideLock, h1.1, h1.2, if_false, List.append_eq]
    rw [ih']
    split <;> simp

theorem heldAfter_append (a b : List Event) (held : Bool)
    (ha : ∀ ev ∈ a, ev ≠ .lock ∧ ev ≠ .unlock) :
    heldAfter held (a ++ b) = heldAfter held b := by
  induction a with
  | nil => simp
  | cons ev rest ih =>
    have h1 := ha ev (List.mem_cons_self _ _)
    have ih' := ih (fun e he => ha e (List.mem_cons_of_mem _ he))
    simp only [List.cons_append, heldAfter, h1.1, h1.2, if_false, List.append_eq]
    exact ih'

theorem heldAfter_of_no_lock (a : List Event) (held : Bool)
    (ha : ∀ ev ∈ a, ev ≠ .lock ∧ ev ≠ .unlock) : heldAfter held a = some held := by
  simpa [heldAfter] using heldAfter_append a [] held ha

theorem mem_outsideLock (l : List Event) (held : Bool) (ev : Event)
    (h : ev ∈ outsideLock held l) : ev ∈ l ∧ ev.isSharedAccess = true := by
  induction l generalizing held with
  | nil => simp [outsideLock] at h
  | cons e rest ih =>
    simp only [outsideLock] at h
    split at h
    · exact ⟨List.mem_cons_of_mem _ (ih _ h).1, (ih _ h).2⟩
    · split at h
      · exact ⟨List.mem_cons_of_mem _ (ih _ h).1, (ih _ h).2⟩
      · split at h
        · rcases List.mem_cons.1 h with h' | h'
          · subst h'
            rename_i hc
            simp at hc
            exact ⟨List.mem_cons_self _ _, hc.2⟩
          · exact ⟨List.mem_cons_of_mem _ (ih _ h').1, (ih _ h').2⟩
        · exact ⟨List.mem_cons_of_mem _ (ih _ h).1, (ih _ h).2⟩

theorem server_locks (w : World) (cfg : Configuration) (status : PluginStatus) (p : Plugin) :
    outsideLock false (OnActivate.server w cfg status p).tr = []
    ∧ heldAfter false (OnActivate.server w cfg status p).tr = some false := by
  unfold OnActivate.server
  cases hsc : rtcServerConfig w cfg with
  | none => simp [outsideLock, heldAfter]
  | some sc =>
    cases hsrv : w.rtcNewServer sc with
    | error e => simp [hsrv, outsideLock, heldAfter, Event.isSharedAccess]
    | ok server =>
      cases hst : w.rtcServerStart server <;>
        simp [hsrv, hst, outsideLock, heldAfter, Event.isSharedAccess]

theorem relay_locks (w : World) (cfg : Configuration) (status : PluginStatus) (p : Plugin) :
    (∀ ev ∈ outsideLock false (OnActivate.relay w cfg status p).tr, ev = .write .rtcdManager)
    ∧ heldAfter false (OnActivate.relay w cfg status p).tr = some false := by
  have hemb : outsideLock false (OnActivate.embedded w cfg status p).tr = []
      ∧ heldAfter false (OnActivate.embedded w cfg status p).tr = some false := by
    unfold OnActivate.embedded
    by_cases hh : w.envIsHandler = ""
    · simpa [hh] using server_locks w cfg status p
    · simpa [hh, outsideLock, heldAfter, Event.isSharedAccess] using
        server_locks w cfg status p
  unfold OnActivate.relay
  by_cases hurl : w.getRTCDURL cfg = ""
  · simp [hurl, hemb]
  · cases hal : w.rtcdAllowed with
    | false => simp [hurl, outsideLock, heldAfter, Event.isSharedAccess, Field.isShared, hemb]
    | true =>
      unfold OnActivate.external
      cases hm : w.newRTCDClientManager (w.getRTCDURL cfg) <;>
        simp [hurl, hm, outsideLock, heldAfter, Event.isSharedAccess, Field.isShared]

theorem logIfErr_isDeactivation (e : Option Error) :
    (logIfErr e).all Event.isDeactivation = true := by
  cases e <;> simp [logIfErr, Event.isDeactivation]

theorem OnDeactivate_isDeactivation (w : World) (p : Plugin) :
    ∀ ev ∈ (OnDeactivate w p).tr, ev.isDeactivation = true := by
  rw [← List.all_eq_true]
  unfold OnDeactivate
  by_cases hc : p.stopChClosed = true
  · simp [hc, Event.isDeactivation]
  · simp only [hc]
    cases p.rtcdManager <;> cases p.rtcServer <;> cases p.botSession <;>
      cases w.isSingleHandler <;>
      simp [List.all_append, List.all_cons, Event.isDeactivation, logIfErr_isDeactivation]

theorem not_lock_of_isDeactivation (ev : Event) (h : ev.isDeactivation = true) :
    ev ≠ .lock ∧ ev ≠ .unlock := by
  cases ev <;> simp_all [Event.isDeactivation]

theorem shared_of_isDeactivation (ev : Event) (h : ev.isDeactivation = true)
    (hs : ev.isSharedAccess = true) :
    ev = .read .rtcdManager ∨ ev = .read .rtcServer ∨ ev = .read .botSession := by
  cases ev with
  | read f => cases f <;> simp_all [Event.isDeactivation, Event.isSharedAccess, Field.isShared]
  | write f => simp_all [Event.isDeactivation]
  | _ => simp_all [Event.isDeactivation, Event.isSharedAccess]

theorem outsideLock_of_no_lock (l : List Event)
    (hl : ∀ ev ∈ l, ev ≠ .lock ∧ ev ≠ .unlock) :
    outsideLock false l = l.filter Event.isSharedAccess := by
  induction l with
  | nil => simp [outsideLock]
  | cons ev rest ih =>
    have h1 := hl ev (List.mem_cons_self _ _)
    have ih' := ih (fun e he => hl e (List.mem_cons_of_mem _ he))
    simp only [outsideLock, h1.1, h1.2, if_false, ih', List.filter_cons]
    cases ev.isSharedAccess <;> simp

theorem botSession_write_outside (l : List Event) (rest : List Event)
    (hl : ∀ ev ∈ l, ev ≠ .lock ∧ ev ≠ .unlock) (h : Event.write .botSession ∈ l) :
    Event.write .botSession ∈ outsideLock false (l ++ rest) := by
  rw [outsideLock_append _ _ _ hl, outsideLock_of_no_lock l hl]
  refine List.mem_append_left _ ?_
  rw [List.mem_filter]
  exact ⟨h, by simp [Event.isSharedAccess, Field.isShared]⟩

theorem server_no_session_write (w : World) (cfg : Configuration) (status : PluginStatus)
    (p : Plugin) : Event.write .botSession ∉ (OnActivate.server w cfg status p).tr := by
  unfold OnActivate.server
  cases hsc : rtcServerConfig w cfg with
  | none => simp
  | some sc =>
    cases hsrv : w.rtcNewServer sc with
    | error e => simp [hsrv]
    | ok server => cases hst : w.rtcServerStart server <;> simp [hsrv, hst]

theorem relay_no_session_write (w : World) (cfg : Configuration) (status : PluginStatus)
    (p : Plugin) : Event.write .botSession ∉ (OnActivate.relay w cfg status p).tr := by
  have hemb : Event.write .botSession ∉ (OnActivate.embedded w cfg status p).tr := by
    unfold OnActivate.embedded
    by_cases hh : w.envIsHandler = ""
    · simpa [hh] using server_no_session_write w cfg status p
    · simpa [hh] using server_no_session_write w cfg status p
  unfold OnActivate.relay
  by_cases hurl : w.getRTCDURL cfg = ""
  · simpa [hurl] using hemb
  · cases hal : w.rtcdAllowed with
    | false => simpa [hurl] using hemb
    | true =>
      unfold OnActivate.external
      cases hm : w.newRTCDClientManager (w.getRTCDURL cfg) <;> simp [hurl, hm]

theorem OnDeactivate_reads (w : World) (p : Plugin) (h : p.stopChClosed = false) :
    Event.read .rtcdManager ∈ (OnDeactivate w p).tr
    ∧ Event.read .rtcServer ∈ (OnDeactivate w p).tr
    ∧ Event.read .botSession ∈ (OnDeactivate w p).tr := by
  unfold OnDeactivate
  simp [h]

theorem Step.idx_injective (a b : Step) (h : a.idx = b.idx) : a = b := by
  cases a <;> cases b <;> simp [Step.idx] at h <;> rfl

theorem Error.Is_refl (e : Error) : e.Is e = true := by
  cases e <;> simp [Error.Is]

theorem Error.Is_wrap (pre : String) (e : Error) : (Error.wrap pre e).Is e = true := by
  simp [Error.Is, Error.Is_refl]

theorem stepTrace_append (a b : List Event) :
    stepTrace (a ++ b) = stepTrace a ++ stepTrace b := by
  simp [stepTrace]

theorem Run.after_fail (pre : List Event) (e : Error) (p : Plugin) :
    Run.after pre (fail e p) = ⟨.ret (some e), p, pre ++ [.log .error e.text []]⟩ := rfl

theorem Pre.snoc (w : World) (i : Nat) (pre t : List Event) (h : Pre w i pre)
    (ht : ∀ ev ∈ t, ev.isReport = false ∧ ∀ s, ev.step = some s → s.idx = i) :
    Pre w i (pre ++ t) := by
  obtain ⟨h1, h2, h3, h4⟩ := h
  have hs : ∀ s ∈ stepTrace t, s = i := by
    intro s hs
    simp only [stepTrace, List.mem_filterMap] at hs
    obtain ⟨ev, hev, hs⟩ := hs
    cases hst : ev.step with
    | none => simp [hst] at hs
    | some st =>
      simp [hst] at hs
      rw [← hs]
      exact (ht ev hev).2 st hst
  refine ⟨?_, ?_, ?_, ?_⟩
  · rw [stepTrace_append, List.pairwise_append]
    refine ⟨h1, ?_, ?_⟩
    · rw [List.pairwise_iff_forall_sublist]
      intro a b hab
      have ha := hs a (hab.subset (by simp))
      have hb := hs b (hab.subset (by simp))
      omega
    · intro a ha b hb
      have := h2 a ha
      have := hs b hb
      omega
  · intro s hs'
    rw [stepTrace_append] at hs'
    rcases List.mem_append.1 hs' with h | h
    · exact h2 s h
    · exact le_of_eq (hs s h)
  · rw [List.filter_append, h3, List.nil_append, List.filter_eq_nil_iff]
    intro ev hev
    simp [(ht ev hev).1]
  · intro j ev hj hm
    exact List.mem_append_left _ (h4 j ev hj hm)

theorem Pre.step (w : World) (i : Nat) (pre : List Event) (s : Step) (h : Pre w i pre)
    (hs : s.idx = i) (hm : ∀ ev, s.marker w = some ev → ev ∈ pre) : Pre w (i + 1) pre := by
  obtain ⟨h1, h2, h3, h4⟩ := h
  refine ⟨h1, fun x hx => Nat.le_succ_of_le (h2 x hx), h3, ?_⟩
  intro j ev hj hmj
  rcases Nat.lt_or_ge j.idx i with h | h
  · exact h4 j ev h hmj
  · have : j = s := Step.idx_injective j s (by omega)
    subst this
    exact hm ev hmj

theorem FailFast.of_fail (w : World) (i : Nat) (pre : List Event) (k : Step) (e e' : Error)
    (q : Plugin) (h : Pre w i pre) (hk : k.idx = i) (hk0 : k ≠ .disableCheck)
    (he : e'.Is e = true) (hin : i ∈ stepTrace pre) :
    FailFast w k e (Run.after pre (fail e' q)) := by
  obtain ⟨h1, h2, h3, h4⟩ := h
  rw [Run.after_fail]
  have hst : stepTrace (pre ++ [Event.log .error e'.text []]) = stepTrace pre := by
    simp [stepTrace, Event.step]
  refine ⟨⟨e', rfl, he, ?_⟩, ?_, ?_, ?_, ?_, ?_⟩
  · simp [failureReport, hk0]
  · simp [List.filter_append, h3, Event.isReport]
  · simpa [hst] using h1
  · intro s hs
    rw [hst] at hs
    rw [hk]
    exact h2 s hs
  · intro j ev hj hm
    exact List.mem_append_left _ (h4 j ev (hk ▸ hj) hm)
  · intro _
    simp only [hst, hk]
    exact hin

theorem firstFailureIn_backend (w : World) (k : Step) (e : Error)
    (h : firstFailureIn w [.backend, .spawn] = some (k, e)) :
    k = .backend ∧ backendError w (activeConfiguration w) = some e := by
  simp only [firstFailureIn, stepError] at h
  cases hb : backendError w (activeConfiguration w) with
  | none => simp [hb] at h
  | some e' =>
    simp [hb] at h
    exact ⟨h.1.symm, by rw [h.2]⟩

theorem server_failFast (w : World) (cfg : Configuration) (status : PluginStatus)
    (q : Plugin) (pre : List Event) (e : Error) (hp : Pre w 10 pre)
    (hb : (match rtcServerConfig w cfg with
      | none => none
      | some sc =>
        match w.rtcNewServer sc with
        | .error e => some e
        | .ok server => w.rtcServerStart server) = some e) :
    FailFast w .backend e (Run.after pre (OnActivate.server w cfg status q)) := by
  unfold OnActivate.server
  cases hsc : rtcServerConfig w cfg with
  | none => simp [hsc] at hb
  | some sc =>
    simp only [hsc] at hb ⊢
    cases hsrv : w.rtcNewServer sc with
    | error err =>
      simp only [hsrv, Option.some.injEq] at hb ⊢
      subst hb
      simp only [Run.after_after]
      exact FailFast.of_fail w 10 _ _ _ _ _
        (Pre.snoc w 10 pre _ hp (by simp [Event.isReport, Event.step, Step.idx]))
        rfl (by decide) (Error.Is_refl _)
        (by simp [stepTrace_append, stepTrace, Event.step, Step.idx])
    | ok server =>
      simp only [hsrv] at hb ⊢
      cases hst : w.rtcServerStart server with
      | none => simp [hst] at hb
      | some err =>
        simp only [hst, Option.some.injEq] at hb ⊢
        subst hb
        simp only [Run.after_after, List.cons_append, List.nil_append]
        exact FailFast.of_fail w 10 _ _ _ _ _
          (Pre.snoc w 10 pre _ hp (by simp [Event.isReport, Event.step, Step.idx]))
          rfl (by decide) (Error.Is_refl _)
          (by simp [stepTrace_append, stepTrace, Event.step, Step.idx])

theorem embedded_failFast (w : World) (cfg : Configuration) (status : PluginStatus)
    (q : Plugin) (pre : List Event) (e : Error) (hp : Pre w 10 pre)
    (hb : (match rtcServerConfig w cfg with
      | none => none
      | some sc =>
        match w.rtcNewServer sc with
        | .error e => some e
        | .ok server => w.rtcServerStart server) = some e) :
    FailFast w .backend e (Run.after pre (OnActivate.embedded w cfg status q)) := by
  unfold OnActivate.embedded
  by_cases hh : w.envIsHandler = ""
  · simp only [hh, ne_eq, not_true_eq_false, if_false]
    exact server_failFast w cfg status q pre e hp hb
  · simp only [hh, ne_eq, not_false_eq_true, if_true, Run.after_after]
    exact server_failFast w cfg status q _ e
      (Pre.snoc w 10 pre _ hp (by simp [Event.isReport, Event.step, Step.idx])) hb

theorem relay_failFast (w : World) (status : PluginStatus) (q : Plugin) (pre : List Event)
    (k : Step) (e : Error) (hp : Pre w 10 pre)
    (h : firstFailureIn w [.backend, .spawn] = some (k, e)) :
    FailFast w k e (Run.after pre (OnActivate.relay w (activeConfiguration w) status q)) := by
  obtain ⟨rfl, hb⟩ := firstFailureIn_backend w k e h
  unfold backendError at hb
  unfold OnActivate.relay
  by_cases hurl : w.getRTCDURL (activeConfiguration w) = ""
  · simp only [hurl, ne_eq, not_true_eq_false, false_and, if_false] at hb ⊢
    exact embedded_failFast w _ status q pre e hp hb
  · cases hal : w.rtcdAllowed with
    | false =>
      simp only [hurl, hal, ne_eq, not_false_eq_true, if_true, Run.after_after, and_false,
        if_false, Bool.false_eq_true] at hb ⊢
      exact embedded_failFast w _ status q _ e
        (Pre.snoc w 10 pre _ hp (by simp [Event.isReport, Event.step, Step.idx])) hb
    | true =>
      simp only [hurl, hal, ne_eq, not_false_eq_true, if_true, and_self] at hb ⊢
      unfold OnActivate.external
      cases hm : w.newRTCDClientManager (w.getRTCDURL (activeConfiguration w)) with
      | ok m => simp [hm] at hb
      | error err =>
        simp only [hm, Option.some.injEq] at hb ⊢
        subst hb
        simp only [Run.after_after, List.cons_append, List.nil_append]
        exact FailFast.of_fail w 10 _ _ _ _ _
          (Pre.snoc w 10 pre _ hp (by simp [Event.isReport, Event.step, Step.idx]))
          rfl (by decide) (Error.Is_wrap _ _)
          (by simp [stepTrace_append, stepTrace, Event.step, Step.idx])

theorem Pre.advance (w : World) (i : Nat) (pre t : List Event) (s : Step) (h : Pre w i pre)
    (hs : s.idx = i)
    (ht : ∀ ev ∈ t, ev.isReport = false ∧ ∀ st, ev.step = some st → st.idx = i)
    (hm : ∀ ev, s.marker w = some ev → ev ∈ pre ++ t) : Pre w (i + 1) (pre ++ t) :=
  Pre.step w i _ s (Pre.snoc w i pre t h ht) hs hm

theorem recordings_failFast (w : World) (status : PluginStatus) (q : Plugin)
    (pre : List Event) (k : Step) (e : Error) (hp : Pre w 9 pre)
    (h : firstFailureIn w [.recordings, .backend, .spawn] = some (k, e)) :
    FailFast w k e
      (Run.after pre (OnActivate.recordings w (activeConfiguration w) status q)) := by
  unfold OnActivate.recordings
  simp only [firstFailureIn, stepError, recordingsError] at h
  by_cases hg : (w.recordingsAllowed && w.recordingsEnabled (activeConfiguration w)) = true
  · simp only [hg, if_true] at h ⊢
    cases hj : w.newJobService (w.getJobServiceURL (activeConfiguration w)) with
    | error err =>
      simp only [hj, Option.some.injEq, Prod.mk.injEq] at h ⊢
      obtain ⟨rfl, rfl⟩ := h
      simp only [Run.after_after, List.cons_append, List.nil_append]
      exact FailFast.of_fail w 9 _ _ _ _ _
        (Pre.snoc w 9 pre _ hp (by simp [Event.isReport, Event.step, Step.idx]))
        rfl (by decide) (Error.Is_wrap _ _)
        (by simp [stepTrace_append, stepTrace, Event.step, Step.idx])
    | ok js =>
      simp only [hj] at h ⊢
      cases hv : w.recorderVersion with
      | none =>
        simp only [hv, Option.some.injEq, Prod.mk.injEq] at h ⊢
        obtain ⟨rfl, rfl⟩ := h
        simp only [Run.after_after, List.cons_append, List.nil_append]
        exact FailFast.of_fail w 9 _ _ _ _ _
          (Pre.snoc w 9 pre _ hp (by simp [Event.isReport, Event.step, Step.idx]))
          rfl (by decide) (Error.Is_refl _)
          (by simp [stepTrace_append, stepTrace, Event.step, Step.idx])
      | some v =>
        simp only [hv] at h ⊢
        simp only [Run.after_after, List.cons_append, List.nil_append]
        exact relay_failFast w status _ _ k e
          (Pre.advance w 9 pre _ .recordings hp rfl
            (by simp [Event.isReport, Event.step, Step.idx])
            (by simp [Step.marker, hg])) h
  · simp only [hg, if_false, Bool.false_eq_true] at h ⊢
    simp only [Run.after_after]
    exact relay_failFast w status _ _ k e
      (Pre.advance w 9 pre _ .recordings hp rfl
        (by simp [Event.isReport, Event.step, Step.idx])
        (by simp [Step.marker, hg])) h

theorem createBotSession_steps (w : World) :
    (∀ ev ∈ (createBotSession w).2,
      ev.isReport = false ∧ ∀ st, ev.step = some st → st.idx = 8)
    ∧ Event.NewMutex "ensure_bot" ∈ (createBotSession w).2 := by
  unfold createBotSession
  cases h1 : w.newMutex "ensure_bot" with
  | some e => simp [Event.isReport, Event.step, Step.idx]
  | none =>
    cases h2 : w.ensureBotUser w.manifestId with
    | error e => simp [Event.isReport, Event.step, Step.idx]
    | ok botID =>
      cases h3 : w.createSession botID <;> simp [h3, Event.isReport, Event.step, Step.idx]

theorem session_failFast (w : World) (status : PluginStatus) (q : Plugin)
    (pre : List Event) (k : Step) (e : Error) (hp : Pre w 8 pre)
    (h : firstFailureIn w [.botSession, .recordings, .backend, .spawn] = some (k, e)) :
    FailFast w k e
      (Run.after pre (OnActivate.session w (activeConfiguration w) status q)) := by
  unfold OnActivate.session
  obtain ⟨hst, hmu⟩ := createBotSession_steps w
  have hin : 8 ∈ stepTrace (pre ++ (createBotSession w).2) := by
    rw [stepTrace_append]
    refine List.mem_append_right _ ?_
    simp only [stepTrace, List.mem_filterMap]
    exact ⟨_, hmu, by simp [Event.step, Step.idx]⟩
  rw [firstFailureIn] at h
  simp only [stepError] at h
  cases hc : (createBotSession w).1 with
  | error err =>
    simp only [hc, Option.some.injEq, Prod.mk.injEq] at h ⊢
    obtain ⟨rfl, rfl⟩ := h
    simp only [Run.after_after]
    exact FailFast.of_fail w 8 _ _ _ _ _ (Pre.snoc w 8 pre _ hp hst)
      rfl (by decide) (Error.Is_refl _) hin
  | ok session =>
    simp only [hc] at h ⊢
    simp only [Run.after_after]
    refine recordings_failFast w status _ _ k e ?_ h
    refine Pre.advance w 8 pre _ .botSession hp rfl ?_ ?_
    · intro ev hev
      rcases List.mem_append.1 hev with h' | h'
      · exact hst ev h'
      · revert h'
        simp [Event.isReport, Event.step, Step.idx]
        rintro rfl
        simp [Event.isReport, Event.step, Step.idx]
    · intro ev hm
      simp only [Step.marker, Option.some.injEq] at hm
      subst hm
      exact List.mem_append_right _ (List.mem_append_left _ hmu)

theorem commands_failFast (w : World) (q : Plugin) (pre : List Event) (k : Step) (e : Error)
    (hp : Pre w 3 pre)
    (h : firstFailureIn w [.registerCommands, .pluginStatus, .loadConfig, .validateConfig,
      .cloudOverride, .botSession, .recordings, .backend, .spawn] = some (k, e)) :
    FailFast w k e (Run.after pre (OnActivate.commands w q)) := by
  unfold OnActivate.commands
  rw [firstFailureIn] at h
  simp only [stepError] at h
  cases h3 : w.registerCommands with
  | some err =>
    simp only [h3, Option.some.injEq, Prod.mk.injEq] at h ⊢
    obtain ⟨rfl, rfl⟩ := h
    simp only [Run.after_after]
    exact FailFast.of_fail w 3 _ _ _ _ _
      (Pre.snoc w 3 pre _ hp (by simp [Event.isReport, Event.step, Step.idx]))
      rfl (by decide) (Error.Is_refl _)
      (by simp [stepTrace_append, stepTrace, Event.step, Step.idx])
  | none =>
    simp only [h3] at h ⊢
    have hp4 := Pre.advance w 3 pre [.registerCommands] .registerCommands hp rfl
      (by simp [Event.isReport, Event.step, Step.idx]) (by simp [Step.marker])
    rw [firstFailureIn] at h
    simp only [stepError] at h
    cases h4 : w.getPluginStatus w.manifestId with
    | error err =>
      simp only [h4, Option.some.injEq, Prod.mk.injEq] at h ⊢
      obtain ⟨rfl, rfl⟩ := h
      simp only [Run.after_after]
      rw [← List.append_assoc]
      exact FailFast.of_fail w 4 _ _ _ _ _
        (Pre.snoc w 4 _ _ hp4 (by simp [Event.isReport, Event.step, Step.idx]))
        rfl (by decide) (Error.Is_refl _)
        (by simp [stepTrace_append, stepTrace, Event.step, Step.idx])
    | ok status =>
      simp only [h4] at h ⊢
      have hp5 := Pre.advance w 4 _ [.GetPluginStatus w.manifestId] .pluginStatus hp4 rfl
        (by simp [Event.isReport, Event.step, Step.idx]) (by simp [Step.marker])
      rw [firstFailureIn] at h
      simp only [stepError] at h
      cases h5 : w.loadConfig with
      | some err =>
        simp only [h5, Option.some.injEq, Prod.mk.injEq] at h ⊢
        obtain ⟨rfl, rfl⟩ := h
        simp only [Run.after_after]
        simp only [← List.append_assoc]
        exact FailFast.of_fail w 5 _ _ _ _ _
          (Pre.snoc w 5 _ _ hp5 (by simp [Event.isReport, Event.step, Step.idx]))
          rfl (by decide) (Error.Is_refl _)
          (by simp [stepTrace_append, stepTrace, Event.step, Step.idx])
      | none =>
        simp only [h5] at h ⊢
        have hp6 := Pre.advance w 5 _ [.loadConfig] .loadConfig hp5 rfl
          (by simp [Event.isReport, Event.step, Step.idx]) (by simp [Step.marker])
        rw [firstFailureIn] at h
        simp only [stepError] at h
        cases h6 : w.isValid w.getConfiguration with
        | some err =>
          simp only [h6, Option.some.injEq, Prod.mk.injEq] at h ⊢
          obtain ⟨rfl, rfl⟩ := h
          simp only [Run.after_after]
          simp only [← List.append_assoc]
          exact FailFast.of_fail w 6 _ _ _ _ _
            (Pre.snoc w 6 _ _ hp6 (by simp [Event.isReport, Event.step, Step.idx]))
            rfl (by decide) (Error.Is_refl _)
            (by simp [stepTrace_append, stepTrace, Event.step, Step.idx])
        | none =>
          simp only [h6] at h ⊢
          have hp7 := Pre.advance w 6 _ [.getConfiguration, .IsValid] .validateConfig hp6 rfl
            (by simp [Event.isReport, Event.step, Step.idx]) (by simp [Step.marker])
          rw [firstFailureIn] at h
          simp only [stepError] at h
          cases hcl : w.isCloud with
          | false =>
            have hcfg : activeConfiguration w = w.getConfiguration := by
              simp [activeConfiguration, hcl]
            simp only [hcl, if_false, Bool.false_eq_true] at h ⊢
            rw [← hcfg]
            simp only [Run.after_after]
            simp only [← List.append_assoc]
            exact session_failFast w status q _ k e
              (Pre.advance w 7 _ [.GetLicense] .cloudOverride hp7 rfl
                (by simp [Event.isReport, Event.step, Step.idx])
                (by simp [Step.marker, hcl])) h
          | true =>
            have hcfg : activeConfiguration w
                = { w.getConfiguration with DefaultEnabled := some true } := by
              simp [activeConfiguration, hcl]
            simp only [hcl, if_true] at h ⊢
            rw [← hcfg]
            cases h7 : w.setConfiguration (activeConfiguration w) with
            | some err =>
              simp only [h7, Option.some.injEq, Prod.mk.injEq] at h ⊢
              obtain ⟨rfl, rfl⟩ := h
              simp only [Run.after_after]
              simp only [← List.append_assoc]
              rw [List.append_assoc]
              exact FailFast.of_fail w 7 _ _ _ _ _
                (Pre.snoc w 7 _ _ hp7 (by simp [Event.isReport, Event.step, Step.idx]))
                rfl (by decide) (Error.Is_wrap _ _)
                (by simp [stepTrace_append, stepTrace, Event.step, Step.idx])
            | none =>
              simp only [h7] at h ⊢
              simp only [Run.after_after]
              simp only [← List.append_assoc]
              rw [List.append_assoc]
              exact session_failFast w status q _ k e
                (Pre.advance w 7 _
                  [.GetLicense, .setConfiguration (activeConfiguration w)] .cloudOverride
                  hp7 rfl (by simp [Event.isReport, Event.step, Step.idx])
                  (by simp [Step.marker, hcl])) h

theorem Pre.nil (w : World) : Pre w 0 [] := by
  simp [Pre, stepTrace]

theorem OnActivate_failFast (w : World) (p : Plugin) (k : Step) (e : Error)
    (h : firstFailure w = some (k, e)) : FailFast w k e (OnActivate w p) := by
  unfold firstFailure Step.all at h
  rw [firstFailureIn] at h
  simp only [stepError] at h
  unfold OnActivate
  by_cases hd : w.envDisable = "true"
  · simp only [hd, if_true, Option.some.injEq, Prod.mk.injEq] at h ⊢
    obtain ⟨rfl, rfl⟩ := h
    refine ⟨⟨_, rfl, Error.Is_refl _, ?_⟩, ?_, ?_, ?_, ?_, ?_⟩
    · simp [failureReport]
    · simp [Event.isReport]
    · simp [stepTrace, Event.step]
    · simp [stepTrace, Event.step]
    · intro j ev hj
      simp [Step.idx] at hj
    · intro hne
      exact absurd rfl hne
  · simp only [hd, if_false] at h ⊢
    rw [firstFailureIn] at h
    simp only [stepError] at h
    have hp1 : Pre w 1 ([] ++ [Event.log .debug "activating" []]) :=
      Pre.advance w 0 [] _ .disableCheck (Pre.nil w) rfl
        (by simp [Event.isReport, Event.step]) (by simp [Step.marker])
    have hp2 := Pre.advance w 1 _ [Event.NewLicenseChecker, Event.write .licenseChecker]
      .licenseInit hp1 rfl (by simp [Event.isReport, Event.step, Step.idx])
      (by simp [Step.marker])
    rw [firstFailureIn] at h
    simp only [stepError] at h
    cases hsh : w.isSingleHandler with
    | false =>
      simp only [hsh, if_false, Bool.false_eq_true] at h ⊢
      simp only [Run.after_after]
      exact commands_failFast w _ _ k e
        (Pre.advance w 2 _ [Event.isSingleHandler] .cleanup hp2 rfl
          (by simp [Event.isReport, Event.step, Step.idx]) (by simp [Step.marker, hsh])) h
    | true =>
      simp only [hsh, if_true] at h ⊢
      cases hcu : w.cleanUpState with
      | some err =>
        simp only [hcu, Option.some.injEq, Prod.mk.injEq] at h ⊢
        obtain ⟨rfl, rfl⟩ := h
        simp only [Run.after_after]
        exact FailFast.of_fail w 2 _ _ _ _ _
          (Pre.snoc w 2 _ [Event.isSingleHandler, Event.cleanUpState] hp2
            (by simp [Event.isReport, Event.step, Step.idx]))
          rfl (by decide) (Error.Is_refl _)
          (by simp [stepTrace_append, stepTrace, Event.step, Step.idx])
      | none =>
        simp only [hcu] at h ⊢
        simp only [Run.after_after]
        exact commands_failFast w _ _ k e
          (Pre.advance w 2 _ [Event.isSingleHandler, Event.cleanUpState] .cleanup hp2 rfl
            (by simp [Event.isReport, Event.step, Step.idx]) (by simp [Step.marker, hsh])) h

theorem isEarly_step_ne_backend (ev : Event) (h : ev.isEarly = true) :
    ev.step.map Step.idx ≠ some 10 := by
  cases ev with
  | write f => cases f <;> simp_all [Event.isEarly, Event.isSetup, Event.step, Step.idx]
  | read f => cases f <;> simp_all [Event.isEarly, Event.isSetup, Event.step, Step.idx]
  | spawn t => cases t <;> simp_all [Event.isEarly, Event.isSetup, Event.step, Step.idx]
  | _ => simp_all [Event.isEarly, Event.isSetup, Event.step, Step.idx]

theorem server_state_of_error (w : World) (cfg : Configuration) (status : PluginStatus)
    (q : Plugin) (h : (OnActivate.server w cfg status q).out ≠ .ret none) :
    (OnActivate.server w cfg status q).p = q := by
  unfold OnActivate.server at h ⊢
  cases hsc : rtcServerConfig w cfg with
  | none => simp
  | some sc =>
    cases hsrv : w.rtcNewServer sc with
    | error e => simp [hsrv]
    | ok server =>
      cases hst : w.rtcServerStart server with
      | some e => simp [hsrv, hst]
      | none => simp [hsc, hsrv, hst] at h

theorem relay_state_of_error (w : World) (cfg : Configuration) (status : PluginStatus)
    (q : Plugin) (h : (OnActivate.relay w cfg status q).out ≠ .ret none) :
    (OnActivate.relay w cfg status q).p = q := by
  have hemb : (OnActivate.embedded w cfg status q).out ≠ .ret none →
      (OnActivate.embedded w cfg status q).p = q := by
    unfold OnActivate.embedded
    by_cases hh : w.envIsHandler = ""
    · simpa [hh] using server_state_of_error w cfg status q
    · simpa [hh] using server_state_of_error w cfg status q
  unfold OnActivate.relay at h ⊢
  by_cases hurl : w.getRTCDURL cfg = ""
  · simp only [hurl, ne_eq, not_true_eq_false, if_false] at h ⊢
    exact hemb h
  · cases hal : w.rtcdAllowed with
    | false =>
      simp only [hurl, hal, ne_eq, not_false_eq_true, if_true, Run.after_out, Run.after_p,
        Bool.false_eq_true, if_false] at h ⊢
      exact hemb h
    | true =>
      simp only [hurl, hal, ne_eq, not_false_eq_true, if_true, Run.after_out, Run.after_p]
        at h ⊢
      unfold OnActivate.external at h ⊢
      cases hm : w.newRTCDClientManager (w.getRTCDURL cfg) with
      | error e => simp [hm]
      | ok m => simp [hm] at h

theorem firstFailureIn_spec (w : World) (l : List Step) (k : Step) (e : Error)
    (h : firstFailureIn w l = some (k, e)) :
    stepError w k = some e ∧ k ∈ l := by
  induction l with
  | nil => simp [firstFailureIn] at h
  | cons s rest ih =>
    rw [firstFailureIn] at h
    cases hs : stepError w s with
    | some e0 =>
      simp only [hs, Option.some.injEq, Prod.mk.injEq] at h
      obtain ⟨rfl, rfl⟩ := h
      exact ⟨hs, List.mem_cons_self _ _⟩
    | none =>
      simp only [hs] at h
      exact ⟨(ih h).1, List.mem_cons_of_mem _ (ih h).2⟩

/-! ## The recording gate -/

/-- C1: in every run of `OnActivate` at most one relay backend is constructed,
and a run that returns nil has constructed and stored exactly one: the rtcd
client manager for the configured URL if that URL is non-empty and
`RTCDAllowed()` holds (then `rtc.NewServer` is not called and `p.rtcServer`,
`p.nodeID` keep their values), the embedded server otherwise (then
`newRTCDClientManager` is not called and `p.rtcdManager` keeps its value). -/
theorem OnActivate_one_backend (w : World) (p : Plugin) :
    ((OnActivate w p).tr.filter Event.isBackendConstruct).length ≤ 1
    ∧ ((OnActivate w p).out = .ret none →
      ((w.getRTCDURL (activeConfiguration w) ≠ "" ∧ w.rtcdAllowed = true) →
        ∃ m, w.newRTCDClientManager (w.getRTCDURL (activeConfiguration w)) = .ok m
          ∧ (OnActivate w p).p.rtcdManager = some m
          ∧ (OnActivate w p).p.rtcServer = p.rtcServer
          ∧ (OnActivate w p).p.nodeID = p.nodeID
          ∧ (OnActivate w p).tr.filter Event.isBackend
              = [.newRTCDClientManager (w.getRTCDURL (activeConfiguration w)),
                  .write .rtcdManager])
      ∧ (¬ (w.getRTCDURL (activeConfiguration w) ≠ "" ∧ w.rtcdAllowed = true) →
        ∃ status sc server, w.getPluginStatus w.manifestId = .ok status
          ∧ rtcServerConfig w (activeConfiguration w) = some sc
          ∧ w.rtcNewServer sc = .ok server
          ∧ (OnActivate w p).p.rtcServer = some server
          ∧ (OnActivate w p).p.nodeID = status.ClusterId
          ∧ (OnActivate w p).p.rtcdManager = p.rtcdManager
          ∧ (OnActivate w p).tr.filter Event.isBackend
              = [.rtcNewServer sc, .rtcServerStart server, .write .nodeID,
                  .write .rtcServer])) := by
  rcases OnActivate_reaches_relay w p with
    ⟨e, t, q, h, ht, hq⟩ | ⟨status, t, q, hs, h, ht, hq, -, -⟩
  · rw [h]
    refine ⟨?_, fun hout => by simp at hout⟩
    simp [filter_eq_nil_of_forall _ _ t ht isBackendConstruct_of_isEarly]
  · rw [h]
    obtain ⟨q1, q2, q3, -, -⟩ := hq
    have hb := filter_eq_nil_of_forall _ _ t ht isBackend_of_isEarly
    have hc := filter_eq_nil_of_forall _ _ t ht isBackendConstruct_of_isEarly
    refine ⟨by simpa [hc] using relay_constructs w _ status q, fun hout => ?_⟩
    obtain ⟨h1, h2⟩ := relay_backend w _ status q (by simpa using hout)
    constructor
    · intro hx
      obtain ⟨m, a1, a2, a3, a4, a5⟩ := h1 hx
      exact ⟨m, a1, by simpa using a2, by simpa [q2] using a3, by simpa [q3] using a4,
        by simpa [hb] using a5⟩
    · intro hx
      obtain ⟨sc, server, a1, a2, a3, a4, a5, a6⟩ := h2 hx
      exact ⟨status, sc, server, hs, a1, a2, by simpa using a3, by simpa using a4,
        by simpa [q1] using a5, by simpa [hb] using a6⟩

/-- A world with the rtcd URL `relay.example:8443` configured and rtcd licensed. -/
theorem OnActivate_one_backend_witness :
    (OnActivate World.delegating Plugin.fresh).out = .ret none
    ∧ (World.delegating.getRTCDURL (activeConfiguration World.delegating) ≠ ""
        ∧ World.delegating.rtcdAllowed = true)
    ∧ ∃ m, World.delegating.newRTCDClientManager
            (World.delegating.getRTCDURL (activeConfiguration World.delegating)) = .ok m
          ∧ (OnActivate World.delegating Plugin.fresh).p.rtcdManager = some m
          ∧ (OnActivate World.delegating Plugin.fresh).p.rtcServer = Plugin.fresh.rtcServer
          ∧ (OnActivate World.delegating Plugin.fresh).p.nodeID = Plugin.fresh.nodeID
          ∧ (OnActivate World.delegating Plugin.fresh).tr.filter Event.isBackend
              = [.newRTCDClientManager
                    (World.delegating.getRTCDURL (activeConfiguration World.delegating)),
                  .write .rtcdManager] :=
  ⟨by decide, ⟨by decide, by decide⟩,
    ((OnActivate_one_backend World.delegating Plugin.fresh).2 (by decide)).1
      ⟨by decide, by decide⟩⟩

/-- C2: when `MM_CALLS_DISABLE` is `"true"`, `OnActivate` returns the error
`disabled by environment flag`, leaves every field of the plugin unchanged,
and its only effects are the two log entries. -/
theorem OnActivate_disabled (w : World) (p : Plugin) (h : w.envDisable = "true") :
    (OnActivate w p).out = .ret (some (.msg "disabled by environment flag"))
    ∧ (OnActivate w p).p = p
    ∧ (OnActivate w p).tr
        = [.log .debug "activating" [], .log .info "disable flag is set, exiting" []]
    ∧ ∀ ev ∈ (OnActivate w p).tr, ev.isLog = true := by
  simp [OnActivate, h, Event.isLog]

theorem OnActivate_disabled_witness :
    World.disabled.envDisable = "true"
    ∧ (OnActivate World.disabled Plugin.active).out
        = .ret (some (.msg "disabled by environment flag"))
    ∧ (OnActivate World.disabled Plugin.active).p = Plugin.active
    ∧ (OnActivate World.disabled Plugin.active).tr
        = [.log .debug "activating" [], .log .info "disable flag is set, exiting" []]
    ∧ ∀ ev ∈ (OnActivate World.disabled Plugin.active).tr, ev.isLog = true :=
  ⟨by decide, OnActivate_disabled World.disabled Plugin.active (by decide)⟩

/-- C3: when `p.stopCh` is not yet closed, `OnDeactivate` returns nil, closes
the channel, and performs exactly the applicable teardown steps, each once and
in the specified order, whichever of them fail. -/
theorem OnDeactivate_all_steps (w : World) (p : Plugin) (h : p.stopChClosed = false) :
    (OnDeactivate w p).out = .ret none
    ∧ (OnDeactivate w p).p = { p with stopChClosed := true }
    ∧ (OnDeactivate w p).tr.filter Event.isTeardown = teardownSteps w p := by
  unfold OnDeactivate teardownSteps
  simp only [h]
  cases p.rtcdManager <;> cases p.rtcServer <;> cases p.botSession <;>
    cases w.isSingleHandler <;>
    simp [Event.isTeardown, List.filter_cons, logIfErr_teardown]

theorem OnDeactivate_all_steps_witness :
    Plugin.active.stopChClosed = false
    ∧ (OnDeactivate World.failingTeardown Plugin.active).out = .ret none
    ∧ (OnDeactivate World.failingTeardown Plugin.active).p
        = { Plugin.active with stopChClosed := true }
    ∧ (OnDeactivate World.failingTeardown Plugin.active).tr.filter Event.isTeardown
        = teardownSteps World.failingTeardown Plugin.active :=
  ⟨by decide, OnDeactivate_all_steps World.failingTeardown Plugin.active (by decide)⟩

/-- C7 fails as stated: `rtc.NewServer` fails, `OnActivate` returns its error,
and `p.botSession`, nil before the call, holds the new session after it. -/
theorem OnActivate_backend_failure_keeps_session :
    World.serverFails.rtcNewServer ⟨"", "", 8443, 8443, "", [], ⟨1440, ""⟩, false⟩
      = .error (.msg "listen failed")
    ∧ (OnActivate World.serverFails Plugin.fresh).out = .ret (some (.msg "listen failed"))
    ∧ Plugin.fresh.botSession = none
    ∧ (OnActivate World.serverFails Plugin.fresh).p.botSession
        = some ⟨"session1", "bot1"⟩ :=
  ⟨rfl, by decide, by decide, by decide⟩

/-- C7 (amended): when every step before the relay backend succeeds and the
construction or the start of the selected backend returns the error `e`
(`newRTCDClientManager`, `rtc.NewServer` or `rtcServer.Start`), `OnActivate`
returns a non-nil error carrying `e`, and `p.rtcdManager`, `p.rtcServer` and
`p.nodeID` have the values they had before the call, while `p.botSession`
holds the session created by this activation. -/
theorem OnActivate_backend_failure (w : World) (p : Plugin) (e : Error)
    (h : firstFailure w = some (.backend, e)) :
    backendError w (activeConfiguration w) = some e
    ∧ (∃ e', (OnActivate w p).out = .ret (some e') ∧ e'.Is e = true)
    ∧ (OnActivate w p).p.rtcdManager = p.rtcdManager
    ∧ (OnActivate w p).p.rtcServer = p.rtcServer
    ∧ (OnActivate w p).p.nodeID = p.nodeID
    ∧ ∃ session, (createBotSession w).1 = .ok session
        ∧ (OnActivate w p).p.botSession = some session := by
  obtain ⟨⟨e', hout, he, -⟩, -, -, -, -, hin⟩ := OnActivate_failFast w p .backend e h
  have hin' := hin (by decide)
  have hbe : backendError w (activeConfiguration w) = some e :=
    (firstFailureIn_spec w Step.all .backend e h).1
  refine ⟨hbe, ⟨e', hout, he⟩, ?_⟩
  rcases OnActivate_reaches_relay w p with
    ⟨e0, t, q, hr, ht, hq⟩ | ⟨status, t, q, hs, hr, ht, hq, -, hb⟩
  · rw [hr] at hin'
    simp only [stepTrace, List.mem_filterMap] at hin'
    obtain ⟨ev, hev, hst⟩ := hin'
    exact absurd hst (isEarly_step_ne_backend ev (ht ev hev))
  · rw [hr] at hout ⊢
    obtain ⟨q1, q2, q3, -, -⟩ := hq
    have hne : (OnActivate.relay w (activeConfiguration w) status q).out ≠ .ret none := by
      simp only [Run.after_out] at hout
      rw [hout]
      simp
    have hp := relay_state_of_error w _ status q hne
    simp only [Run.after_p, hp]
    exact ⟨q1, q2, q3, hb⟩

theorem OnActivate_backend_failure_witness :
    firstFailure World.startFails = some (.backend, .msg "bind failed")
    ∧ backendError World.startFails (activeConfiguration World.startFails)
        = some (.msg "bind failed")
    ∧ (∃ e', (OnActivate World.startFails Plugin.fresh).out = .ret (some e')
        ∧ e'.Is (.msg "bind failed") = true)
    ∧ (OnActivate World.startFails Plugin.fresh).p.rtcdManager = Plugin.fresh.rtcdManager
    ∧ (OnActivate World.startFails Plugin.fresh).p.rtcServer = Plugin.fresh.rtcServer
    ∧ (OnActivate World.startFails Plugin.fresh).p.nodeID = Plugin.fresh.nodeID
    ∧ ∃ session, (createBotSession World.startFails).1 = .ok session
        ∧ (OnActivate World.startFails Plugin.fresh).p.botSession = some session :=
  ⟨by decide,
    OnActivate_backend_failure World.startFails Plugin.fresh (.msg "bind failed")
      (by decide)⟩

/-- C8 fails as stated: the handler flag is set, rtcd is configured and
licensed, `OnActivate` returns nil, and no handler goroutine is started. -/
theorem OnActivate_handler_not_started :
    World.delegating.envIsHandler ≠ ""
    ∧ (OnActivate World.delegating Plugin.fresh).out = .ret none
    ∧ (OnActivate World.delegating Plugin.fresh).tr.filter Event.isHandlerSpawn = [] := by
  decide

/-- C8 (amended): in an activation that returns nil the handler goroutine is
started if and only if `MM_CALLS_IS_HANDLER` is non-empty and the external
rtcd backend is not selected; it is started with the cluster ID returned by
`GetPluginStatus`, and the first call `p.setHandlerID` it makes carries that
cluster ID. -/
theorem OnActivate_handler_task (w : World) (p : Plugin)
    (h : (OnActivate w p).out = .ret none) :
    ∃ status, w.getPluginStatus w.manifestId = .ok status
      ∧ (OnActivate w p).tr.filter Event.isHandlerSpawn
          = (if w.envIsHandler ≠ ""
                ∧ ¬ (w.getRTCDURL (activeConfiguration w) ≠ "" ∧ w.rtcdAllowed = true)
              then [.spawn (.handlerID status.ClusterId)] else [])
      ∧ ∀ signals, ((handlerTask w status.ClusterId signals).tr.filter
            Event.isHandlerWrite).head? = some (.setHandlerID status.ClusterId) := by
  rcases OnActivate_reaches_relay w p with
    ⟨e, t, q, hr, ht, hq⟩ | ⟨status, t, q, hs, hr, ht, hq, -, hb⟩
  · rw [hr] at h
    simp at h
  · refine ⟨status, hs, ?_, fun signals => handlerTask_first_write w _ signals⟩
    rw [hr]
    have hb := filter_eq_nil_of_forall _ _ t ht isHandlerSpawn_of_isEarly
    simp only [Run.after_tr, List.filter_append, hb, List.nil_append]
    exact relay_handler_spawn w _ status q

theorem OnActivate_handler_task_witness :
    (OnActivate World.handler Plugin.fresh).out = .ret none
    ∧ ∃ status, World.handler.getPluginStatus World.handler.manifestId = .ok status
      ∧ (OnActivate World.handler Plugin.fresh).tr.filter Event.isHandlerSpawn
          = (if World.handler.envIsHandler ≠ ""
                ∧ ¬ (World.handler.getRTCDURL (activeConfiguration World.handler) ≠ ""
                  ∧ World.handler.rtcdAllowed = true)
              then [.spawn (.handlerID status.ClusterId)] else [])
      ∧ ∀ signals, ((handlerTask World.handler status.ClusterId signals).tr.filter
            Event.isHandlerWrite).head? = some (.setHandlerID status.ClusterId) :=
  ⟨by decide, OnActivate_handler_task World.handler Plugin.fresh (by decide)⟩

/-- C9: the handler goroutine, run over any sequence of signals and with any
results of its writes, calls `p.setHandlerID` once at entry and once per tick
it receives, always with the cluster ID it was started with; a failed write is
the last one (no retry); the closing of `p.stopCh`, once received, is the last
signal received; the goroutine has returned exactly when its last write failed
or the closing was received, and then nothing offered later has any effect;
while it has not returned it has received every signal offered. -/
theorem handlerTask_spec (w : World) (clusterID : String) (signals : List Signal) :
    (handlerTask w clusterID signals).tr.filter Event.isHandlerWrite
        = List.replicate (1 + (handlerTask w clusterID signals).ticks)
            (.setHandlerID clusterID)
    ∧ (handlerTask w clusterID signals).received ≤ signals.length
    ∧ (handlerTask w clusterID signals).ticks
        = (signals.take (handlerTask w clusterID signals).received).count .tick
    ∧ (∀ n e, w.setHandlerID n clusterID = some e →
        (handlerTask w clusterID signals).ticks ≤ n)
    ∧ (Signal.stop ∈ signals.take (handlerTask w clusterID signals).received →
        (signals.take (handlerTask w clusterID signals).received).getLast? = some .stop)
    ∧ ((handlerTask w clusterID signals).returned = true ↔
        ((∃ e, w.setHandlerID (handlerTask w clusterID signals).ticks clusterID = some e)
          ∨ Signal.stop ∈ signals.take (handlerTask w clusterID signals).received))
    ∧ ((handlerTask w clusterID signals).returned = true →
        ∀ rest, handlerTask w clusterID
            (signals.take (handlerTask w clusterID signals).received ++ rest)
          = handlerTask w clusterID signals)
    ∧ ((handlerTask w clusterID signals).returned = false →
        (handlerTask w clusterID signals).received = signals.length) := by
  unfold handlerTask
  cases h0 : w.setHandlerID 0 clusterID with
  | some e => simp [h0, Event.isHandlerWrite, List.filter_cons]
  | none =>
    obtain ⟨a, b, c, d, e, f, g, h⟩ := handlerLoop_spec w clusterID signals 0 h0
    simp only [Nat.zero_add] at a b c d e f g h
    refine ⟨?_, b, c, ?_, e, ?_, ?_, h⟩
    · simp [Event.isHandlerWrite, List.filter_cons, a, List.replicate_succ, Nat.add_comm 1]
    · intro n e' he
      exact d n e' (Nat.zero_le n) he
    · simpa using f
    · intro hr rest
      simp only [h0]
      rw [g hr rest]

theorem handlerTask_spec_witness :
    (handlerTask World.handler "node1" [.tick, .tick, .stop, .tick]).tr.filter
        Event.isHandlerWrite
      = List.replicate
          (1 + (handlerTask World.handler "node1" [.tick, .tick, .stop, .tick]).ticks)
          (.setHandlerID "node1")
    ∧ (handlerTask World.handler "node1" [.tick, .tick, .stop, .tick]).ticks = 2
    ∧ (handlerTask World.handler "node1" [.tick, .tick, .stop, .tick]).returned = true :=
  ⟨(handlerTask_spec World.handler "node1" [.tick, .tick, .stop, .tick]).1,
    by decide, by decide⟩

/-- C10 fails as stated: `OnActivate` writes `p.botSession`, and `OnDeactivate`
reads `p.rtcdManager`, `p.rtcServer` and `p.botSession`, without holding
`p.mut`. -/
theorem shared_state_unlocked_access :
    outsideLock false (OnActivate World.sample Plugin.fresh).tr = [.write .botSession]
    ∧ outsideLock false (OnDeactivate World.sample Plugin.active).tr
        = [.read .rtcdManager, .read .rtcServer, .read .rtcServer, .read .botSession,
            .read .botSession] := by
  decide

/-- C10 (amended): in every trace of `OnActivate`, of `OnDeactivate` and of the
job-runner goroutine the uses of `p.mut` are properly paired, and every write
of `p.nodeID`, `p.rtcServer` and `p.jobService` occurs while it is held. The
write of `p.botSession` in `OnActivate` and the reads of `p.rtcdManager`,
`p.rtcServer` and `p.botSession` in `OnDeactivate` occur while it is not held.
Nothing is stated about the write of `p.rtcdManager`. -/
theorem shared_state_locking (w : World) (p : Plugin) (jobService : JobService) :
    (∀ ev ∈ outsideLock false (OnActivate w p).tr,
        ev ≠ .write .rtcdManager → ev = .write .botSession)
    ∧ Event.write .nodeID ∉ outsideLock false (OnActivate w p).tr
    ∧ Event.write .rtcServer ∉ outsideLock false (OnActivate w p).tr
    ∧ (Event.write .botSession ∈ (OnActivate w p).tr →
        Event.write .botSession ∈ outsideLock false (OnActivate w p).tr)
    ∧ heldAfter false (OnActivate w p).tr = some false
    ∧ outsideLock false (OnDeactivate w p).tr
        = (OnDeactivate w p).tr.filter Event.isSharedAccess
    ∧ (∀ ev ∈ outsideLock false (OnDeactivate w p).tr,
        ev = .read .rtcdManager ∨ ev = .read .rtcServer ∨ ev = .read .botSession)
    ∧ (p.stopChClosed = false →
        Event.read .rtcdManager ∈ outsideLock false (OnDeactivate w p).tr
        ∧ Event.read .rtcServer ∈ outsideLock false (OnDeactivate w p).tr
        ∧ Event.read .botSession ∈ outsideLock false (OnDeactivate w p).tr)
    ∧ heldAfter false (OnDeactivate w p).tr = some false
    ∧ outsideLock false (jobRunnerTask w jobService p).tr = []
    ∧ heldAfter false (jobRunnerTask w jobService p).tr = some false
    ∧ (w.updateJobRunner jobService p.recordingJobRunner = none →
        Event.write .jobService ∈ (jobRunnerTask w jobService p).tr) := by
  have hd : ∀ ev ∈ (OnDeactivate w p).tr, ev ≠ .lock ∧ ev ≠ .unlock :=
    fun e he => not_lock_of_isDeactivation e (OnDeactivate_isDeactivation w p e he)
  have ha : ∀ ev ∈ outsideLock false (OnActivate w p).tr,
      ev ≠ .write .rtcdManager → ev = .write .botSession := by
    rcases OnActivate_reaches_relay w p with
      ⟨e, t, q, hr, ht, hq⟩ | ⟨status, t, q, hs, hr, ht, hq, -, hb⟩
    · rw [hr]
      intro ev hev _
      obtain ⟨h1, h2⟩ := mem_outsideLock _ _ _ hev
      exact shared_of_isEarly ev (ht ev h1) h2
    · rw [hr]
      intro ev hev hne
      simp only [Run.after_tr] at hev
      rw [outsideLock_append _ _ _ (fun e he => not_lock_of_isEarly e (ht e he))] at hev
      rcases List.mem_append.1 hev with h | h
      · obtain ⟨h1, h2⟩ := mem_outsideLock _ _ _ h
        exact shared_of_isEarly ev (ht ev h1) h2
      · exact absurd ((relay_locks w _ status q).1 ev h) hne
  refine ⟨ha, fun h => ?_, fun h => ?_, ?_, ?_, outsideLock_of_no_lock _ hd, ?_, ?_,
    heldAfter_of_no_lock _ _ hd, ?_, ?_, ?_⟩
  · exact absurd (ha _ h (by decide)) (by decide)
  · exact absurd (ha _ h (by decide)) (by decide)
  · rcases OnActivate_reaches_relay w p with
      ⟨e, t, q, hr, ht, hq⟩ | ⟨status, t, q, hs, hr, ht, hq, -, hb⟩
    · rw [hr]
      intro h
      simpa using botSession_write_outside t []
        (fun e he => not_lock_of_isEarly e (ht e he)) h
    · rw [hr]
      intro h
      simp only [Run.after_tr] at h ⊢
      rcases List.mem_append.1 h with h | h
      · exact botSession_write_outside t _ (fun e he => not_lock_of_isEarly e (ht e he)) h
      · exact absurd h (relay_no_session_write w _ status q)
  · rcases OnActivate_reaches_relay w p with
      ⟨e, t, q, hr, ht, hq⟩ | ⟨status, t, q, hs, hr, ht, hq, -, hb⟩
    · rw [hr]
      exact heldAfter_of_no_lock _ _ (fun e he => not_lock_of_isEarly e (ht e he))
    · rw [hr]
      simp only [Run.after_tr]
      rw [heldAfter_append _ _ _ (fun e he => not_lock_of_isEarly e (ht e he))]
      exact (relay_locks w _ status q).2
  · intro ev hev
    obtain ⟨h1, h2⟩ := mem_outsideLock _ _ _ hev
    exact shared_of_isDeactivation ev (OnDeactivate_isDeactivation w p ev h1) h2
  · intro h
    obtain ⟨a, b, c⟩ := OnDeactivate_reads w p h
    rw [outsideLock_of_no_lock _ hd]
    simp only [List.mem_filter]
    exact ⟨⟨a, by simp [Event.isSharedAccess, Field.isShared]⟩,
      ⟨b, by simp [Event.isSharedAccess, Field.isShared]⟩,
      ⟨c, by simp [Event.isSharedAccess, Field.isShared]⟩⟩
  · unfold jobRunnerTask
    cases w.updateJobRunner jobService p.recordingJobRunner <;>
      simp [outsideLock, Event.isSharedAccess, Field.isShared]
  · unfold jobRunnerTask
    cases w.updateJobRunner jobService p.recordingJobRunner <;>
      simp [heldAfter]
  · intro h
    simp [jobRunnerTask, h]

end Calls
